import Mathlib

/-!
Verification of the fabric-pulse-ai core pipeline against its specification.

The definitions below are a shallow embedding of the Python source:
 * `backend/backend/whatsapp_service.py` — the alert rate limiter and
   dispatcher (`EnhancedWhatsAppService`);
 * `backend/main.py` — the hierarchical aggregation engine
   (`FabricPulseRTMSEngine.get_enhanced_hierarchy_data`), the performance
   classifier (`EnhancedLlamaAIAnalyzer.categorize_performance`), the
   underperformer identification and alert loop
   (`identify_underperformers`, `send_whatsapp_alerts`);
 * `backend/fabric_pulse_ai_main.py` — the relative (peer-benchmark)
   underperformer detector (`should_send_whatsapp`,
   `EnhancedRTMSEngine.process_efficiency_analysis`) and the threshold-based
   status classifier (`_get_efficiency_status`), with threshold defaults
   from `backend/backend/config.py`.

Python dictionaries are modelled as association lists (insertion order kept,
as in Python 3.7+); `datetime` instants are modelled as natural numbers of
minutes, a calendar day being 1440 minutes; numeric quantities that Python
holds as `int`/`float` are modelled as `Int`/`ℚ`.
-/

/-- Association-list lookup, modelling Python `d[k]` / `k in d`. -/
def lookupKey {α β : Type} [DecidableEq α] (k : α) : List (α × β) → Option β
  | [] => none
  | (a, b) :: t => if a = k then some b else lookupKey k t

/-- Association-list insert-or-overwrite, modelling Python `d[k] = v`. -/
def upsert {α β : Type} [DecidableEq α] (l : List (α × β)) (k : α) (v : β) :
    List (α × β) :=
  match l with
  | [] => [(k, v)]
  | (a, b) :: t => if a = k then (k, v) :: t else (a, b) :: upsert t k v

/-- Association-list "setdefault then mutate in place", modelling the Python
idiom `f(d.setdefault(k, dflt))` where `f` mutates the entry: the entry at
`k` (created as `dflt` if absent) is replaced by `f` of it. -/
def updateAt {α β : Type} [DecidableEq α] (l : List (α × β)) (k : α)
    (dflt : β) (f : β → β) : List (α × β) :=
  match l with
  | [] => [(k, f dflt)]
  | (a, b) :: t => if a = k then (a, f b) :: t else (a, b) :: updateAt t k dflt f

/-! ## Alert rate limiter (`backend/backend/whatsapp_service.py`) -/

/-- `EnhancedWhatsAppService.max_alerts_per_day` (line 44). -/
def max_alerts_per_day : Nat := 50

/-- `EnhancedWhatsAppService.min_alert_interval` = 5 minutes (line 42). -/
def min_alert_interval : Nat := 5

/-- Calendar date of an instant (`datetime.date()`), with time in minutes
and a day of 1440 minutes. -/
def dayOf (t : Nat) : Nat := t / 1440

/-- The rate limiter's mutable state: `last_alert_times` (alert key ↦ last
accepted-send instant) and `daily_alert_count` (calendar day ↦ number of
recorded sends), lines 41 and 43. -/
structure WAState where
  last_alert_times : List (String × Nat)
  daily_alert_count : List (Nat × Nat)
deriving Repr, DecidableEq

/-- The initial state: both maps empty (`EnhancedWhatsAppService.__init__`). -/
def WAState.init : WAState := ⟨[], []⟩

/-- `EnhancedWhatsAppService.can_send_alert` (lines 116–136).  Returns the
decision together with the post-call state, because the Python method
mutates `daily_alert_count` (it resets the whole map to `{today: 0}` when
`today` is absent). -/
def can_send_alert (s : WAState) (alert_key : String) (now : Nat) :
    Bool × WAState :=
  let today := dayOf now
  let daily :=
    if (lookupKey today s.daily_alert_count).isNone then [(today, 0)]
    else s.daily_alert_count
  let s' : WAState := ⟨s.last_alert_times, daily⟩
  if max_alerts_per_day ≤ (lookupKey today daily).getD 0 then
    (false, s')
  else
    match lookupKey alert_key s.last_alert_times with
    | some last =>
      if now - last < min_alert_interval then (false, s') else (true, s')
    | none => (true, s')

/-- `EnhancedWhatsAppService.record_alert_sent` (lines 138–147). -/
def record_alert_sent (s : WAState) (alert_key : String) (now : Nat) :
    WAState :=
  let today := dayOf now
  ⟨upsert s.last_alert_times alert_key now,
   match lookupKey today s.daily_alert_count with
   | some c => upsert s.daily_alert_count today (c + 1)
   | none => upsert s.daily_alert_count today 1⟩

/-- `EnhancedWhatsAppService.send_alert` (lines 46–83).  `results` is the
outcome of `send_message` for each recipient in order (an exception in the
per-recipient loop is caught and behaves as a failed send).
`record_alert_sent` is invoked iff `success_count > 0`. -/
def send_alert (s : WAState) (alert_key : String) (now : Nat)
    (results : List Bool) : Bool × WAState :=
  let (ok, s1) := can_send_alert s alert_key now
  if ok then
    let success_count := (results.filter id).length
    if 0 < success_count then (true, record_alert_sent s1 alert_key now)
    else (false, s1)
  else
    (false, s1)

/-- A sequence of `record_alert_sent` calls, in order. -/
def applyRecords (s : WAState) (rs : List (String × Nat)) : WAState :=
  rs.foldl (fun s kt => record_alert_sent s kt.1 kt.2) s

/-! ## Efficiency classifiers (`backend/main.py` 294–314 and 627–632,
`backend/fabric_pulse_ai_main.py` 666–675, defaults from
`backend/backend/config.py` 44–47) -/

/-- `AlertConfig.efficiency_threshold` default (config.py line 46). -/
def efficiency_threshold : ℚ := 85

/-- `AlertConfig.critical_threshold` default (config.py line 47). -/
def critical_threshold : ℚ := 70

/-- The band expression of `main.py`: the `performance_category`
conditional (lines 627–632), which is also the branch structure of
`EnhancedLlamaAIAnalyzer.categorize_performance` (lines 294–314). -/
def performance_category (eff : ℚ) : String :=
  if 95 ≤ eff then "excellent"
  else if 85 ≤ eff then "good"
  else if 70 ≤ eff then "needs_improvement"
  else "critical"

/-- One iteration of the `categorize_performance` loop (main.py 303–312):
append the efficiency to the list chosen by the threshold chain. -/
def catStep (c : List ℚ × List ℚ × List ℚ × List ℚ) (eff : ℚ) :
    List ℚ × List ℚ × List ℚ × List ℚ :=
  if 95 ≤ eff then (c.1 ++ [eff], c.2.1, c.2.2.1, c.2.2.2)
  else if 85 ≤ eff then (c.1, c.2.1 ++ [eff], c.2.2.1, c.2.2.2)
  else if 70 ≤ eff then (c.1, c.2.1, c.2.2.1 ++ [eff], c.2.2.2)
  else (c.1, c.2.1, c.2.2.1, c.2.2.2 ++ [eff])

/-- `EnhancedLlamaAIAnalyzer.categorize_performance` (main.py 294–314),
over the employees' efficiency values, returning the
(excellent, good, needs_improvement, critical) lists. -/
def categorize_performance (effs : List ℚ) :
    List ℚ × List ℚ × List ℚ × List ℚ :=
  effs.foldl catStep ([], [], [], [])

/-- `EnhancedRTMSEngine._get_efficiency_status`
(fabric_pulse_ai_main.py 666–675): note the `excellent` cutoff is 100, and
the other two cutoffs come from the configuration. -/
def get_efficiency_status (effThreshold critThreshold eff : ℚ) : String :=
  if 100 ≤ eff then "excellent"
  else if effThreshold ≤ eff then "good"
  else if critThreshold ≤ eff then "needs_improvement"
  else "critical"

/-- Numeric rank of a band, for stating monotonicity. -/
def bandRank (b : String) : Nat :=
  if b = "excellent" then 3
  else if b = "good" then 2
  else if b = "needs_improvement" then 1
  else 0

/-! ## Underperformer identification and alert loop (`backend/main.py`
167–190, 229–239, 685–709).  Python `round(x, 2)` is modelled as exact
half-to-even rounding at 2 decimals of the rational value. -/

/-- Round to the nearest integer, ties to even (Python `round`). -/
def roundHalfEven (x : ℚ) : ℤ :=
  let f := ⌊x⌋
  let r := x - f
  if r < 1/2 then f
  else if 1/2 < r then f + 1
  else if f % 2 = 0 then f else f + 1

/-- Python `round(x, 2)`. -/
def pyRound2 (x : ℚ) : ℚ := (roundHalfEven (x * 100) : ℚ) / 100

/-- One row of `efficiency_data` (main.py 174–190): the fields consulted in
the alerting path (the purely display-oriented fields are omitted);
`efficiency` holds `round(calculate_efficiency(), 2)`. -/
structure EmpEff where
  emp_name : String
  emp_code : String
  line_name : String
  unit_code : String
  new_oper_seq : String
  efficiency : ℚ
deriving Repr, DecidableEq

/-- An entry produced by `identify_underperformers` (main.py 234–238): the
employee row plus `performance_gap` and `alert_priority`. -/
structure UnderperformerEntry where
  emp : EmpEff
  performance_gap : ℚ
  alert_priority : String
deriving Repr, DecidableEq

/-- The entry built for an underperforming row (main.py 234–238). -/
def mkUnderperformer (e : EmpEff) : UnderperformerEntry :=
  ⟨e, pyRound2 (85 - e.efficiency),
   if e.efficiency < 70 then "HIGH" else "MEDIUM"⟩

/-- `EnhancedLlamaAIAnalyzer.identify_underperformers` (main.py 229–239). -/
def identify_underperformers (effs : List EmpEff) :
    List UnderperformerEntry :=
  effs.foldl
    (fun acc e =>
      if e.efficiency < 85 then acc ++ [mkUnderperformer e] else acc) []

/-- The entries of `FabricPulseRTMSEngine.send_whatsapp_alerts`
(main.py 685–709) that reach `whatsapp_service.send_alert` — and hence the
rate limiter: the loop dispatches only entries whose `alert_priority` is in
`["HIGH", "CRITICAL"]`. -/
def send_whatsapp_alerts_attempted (entries : List UnderperformerEntry) :
    List UnderperformerEntry :=
  entries.filter
    (fun e => decide (e.alert_priority = "HIGH"
      ∨ e.alert_priority = "CRITICAL"))

/-! ## Relative underperformer detector
(`backend/fabric_pulse_ai_main.py` 176–195, 605–641) -/

/-- One production row (`RTMSProductionData`), restricted to the fields the
analytic/alerting pipeline reads (query/display-only fields are omitted).
`ProdnPcs` is the produced-piece count, `Eff100` the 100%-efficiency target
denominator. -/
structure RTMSProductionData where
  EmpName : String
  EmpCode : String
  DeviceID : String
  StyleNo : String
  LineName : String
  Operation : String
  UnitCode : String
  PartName : String
  FloorName : String
  NewOperSeq : String
  ProdnPcs : Int
  Eff100 : Int
  UsedMin : ℚ
  SAM : ℚ
  IsRedFlag : Int
deriving Repr, DecidableEq

/-- `RTMSProductionData.calculate_efficiency` (main.py 105–107,
identically in fabric_pulse_ai_main.py): `(ProdnPcs / Eff100 * 100) if
Eff100 > 0 else 0.0`. -/
def RTMSProductionData.calculate_efficiency (r : RTMSProductionData) : ℚ :=
  if 0 < r.Eff100 then (r.ProdnPcs : ℚ) / (r.Eff100 : ℚ) * 100 else 0

/-- The `operator` dictionary built per row in
`process_efficiency_analysis` (fabric_pulse_ai_main.py 617–631), restricted
to the fields the detector reads plus identity/status fields. -/
structure Operator where
  emp_name : String
  emp_code : String
  line_name : String
  unit_code : String
  new_oper_seq : String
  efficiency : ℚ
  status : String
deriving Repr, DecidableEq

/-- Construction of the `operator` dict from a row
(fabric_pulse_ai_main.py 617–631): `efficiency` is `round(efficiency, 2)`,
`status` is `_get_efficiency_status(efficiency)` on the unrounded value. -/
def mkOperator (r : RTMSProductionData) : Operator :=
  ⟨r.EmpName, r.EmpCode, r.LineName, r.UnitCode, r.NewOperSeq,
   pyRound2 r.calculate_efficiency,
   get_efficiency_status efficiency_threshold critical_threshold
     r.calculate_efficiency⟩

/-- `should_send_whatsapp` (fabric_pulse_ai_main.py 176–195): flag iff the
employee's rounded efficiency is below 85% of the best efficiency among the
supplied `line_performers` sharing the same line and operation. -/
def should_send_whatsapp (emp_data : Operator)
    (line_performers : List Operator) : Bool :=
  if line_performers = [] then false
  else
    let same_operation := line_performers.filter
      (fun p => decide (p.line_name = emp_data.line_name
        ∧ p.new_oper_seq = emp_data.new_oper_seq))
    match same_operation with
    | [] => false
    | p :: ps =>
      let top_performer_eff := (ps.map (·.efficiency)).foldl max p.efficiency
      decide (emp_data.efficiency < top_performer_eff * (85 / 100))

/-- One iteration of the `process_efficiency_analysis` loop
(fabric_pulse_ai_main.py 615–636): append the operator to `operators`
FIRST, then test `should_send_whatsapp(operator, operators)` — so the
benchmark pool is only the batch rows processed so far. -/
def processStep (acc : List Operator × List Operator)
    (r : RTMSProductionData) : List Operator × List Operator :=
  let operator := mkOperator r
  let operators := acc.1 ++ [operator]
  (operators,
   if should_send_whatsapp operator operators then acc.2 ++ [operator]
   else acc.2)

/-- The `underperformers` list produced by
`EnhancedRTMSEngine.process_efficiency_analysis` (fabric_pulse_ai_main.py
605–641). -/
def process_efficiency_underperformers (data : List RTMSProductionData) :
    List Operator :=
  (data.foldl processStep ([], [])).2

/-- Maximum of a list of rationals (0 on the empty list; on a nonempty
list this is Python `max`). -/
def listMaxQ : List ℚ → ℚ
  | [] => 0
  | h :: t => t.foldl max h

/-- Modelled from the spec (§3, §4.3): `peerBenchmarkEfficiency` = the
maximum efficiency among the rows of the given pool sharing the employee's
`(line, operation)` pair.  Used to compare the code's behaviour with the
spec's whole-batch benchmark. -/
def spec_peer_benchmark (pool : List Operator) (emp : Operator) : ℚ :=
  listMaxQ ((pool.filter
    (fun p => decide (p.line_name = emp.line_name
      ∧ p.new_oper_seq = emp.new_oper_seq))).map (·.efficiency))

/-- The flag decisions that `process_efficiency_analysis` actually makes:
row `i` is flagged iff `should_send_whatsapp` holds against the pool of
operators with batch positions `≤ i`. -/
def flaggedByBatchOrder (data : List RTMSProductionData) : List Operator :=
  (List.range data.length).filterMap (fun i =>
    match (data.map mkOperator).get? i with
    | some op =>
      if should_send_whatsapp op ((data.map mkOperator).take (i + 1))
      then some op else none
    | none => none)

/-- A row with efficiency 50 (produced 50 of target 100), line `"L1"`,
operation `"O1"`. -/
def c3rowLow : RTMSProductionData :=
  ⟨"A", "A1", "D1", "S1", "L1", "Op", "U1", "P1", "F1", "O1",
   50, 100, 0, 0, 0⟩

/-- A row with efficiency 100 (produced 100 of target 100), same line and
operation as `c3rowLow`. -/
def c3rowHigh : RTMSProductionData :=
  ⟨"B", "B1", "D1", "S1", "L1", "Op", "U1", "P1", "F1", "O1",
   100, 100, 0, 0, 0⟩

/-! ## Hierarchical aggregation engine
(`FabricPulseRTMSEngine.get_enhanced_hierarchy_data`, main.py 536–644).

Each Python level dict (`unit`, `floor`, `line`, `style`, `part`,
`operation`, `device`) has the same shape — a name, a children dict, the
running totals, the derived efficiency and the member counters — and the
per-row totals loop (lines 636–642) applies the same update at all seven
levels, so the levels share one parametric node type. -/

/-- The employee leaf dict (main.py 616–633). -/
structure EmpRec where
  name : String
  code : String
  production : Int
  target : Int
  efficiency : ℚ
  operation : String
  used_min : ℚ
  sam : ℚ
  is_underperformer : Bool
  is_red_flag : Bool
  performance_category : String
deriving Repr, DecidableEq

/-- The employee leaf written for a row (main.py 616–633): the stored
`efficiency` is `round(actual_efficiency, 2)`; `is_underperformer` and
`performance_category` use the unrounded value. -/
def mkEmpRec (r : RTMSProductionData) : EmpRec :=
  ⟨r.EmpName, r.EmpCode, r.ProdnPcs, r.Eff100,
   pyRound2 r.calculate_efficiency, r.Operation, r.UsedMin, r.SAM,
   decide (r.calculate_efficiency < 85), decide (r.IsRedFlag ≠ 0),
   performance_category r.calculate_efficiency⟩

/-- One aggregation level: `name`, the children dict, `total_production`,
`total_target`, `efficiency`, `employee_count`, `underperformer_count`
(main.py 544–612). -/
structure NodeData (χ : Type) where
  name : String
  children : χ
  total_production : Int
  total_target : Int
  efficiency : ℚ
  employee_count : Nat
  underperformer_count : Nat
deriving Repr, DecidableEq

abbrev DeviceNode := NodeData (List (String × EmpRec))
abbrev OperationNode := NodeData (List (String × DeviceNode))
abbrev PartNode := NodeData (List (String × OperationNode))
abbrev StyleNode := NodeData (List (String × PartNode))
abbrev LineNode := NodeData (List (String × StyleNode))
abbrev FloorNode := NodeData (List (String × LineNode))
abbrev UnitNode := NodeData (List (String × FloorNode))
abbrev Hierarchy := List (String × UnitNode)

/-- The `setdefault` default at each level (main.py 544–612): fresh name,
empty children, zero totals and counters. -/
def emptyNode {χ : Type} (nm : String) (c : χ) : NodeData χ :=
  ⟨nm, c, 0, 0, 0, 0, 0⟩

/-- The per-level update a row performs (main.py 636–642): apply `f` to
the children, add `ProdnPcs`/`Eff100` to the running totals, recompute
`efficiency` from the new totals (0 if the target is not positive), bump
`employee_count`, and bump `underperformer_count` iff the row's unrounded
efficiency is below 85 (line 615). -/
def bumpNode {χ : Type} (r : RTMSProductionData) (f : χ → χ)
    (n : NodeData χ) : NodeData χ :=
  let tp := n.total_production + r.ProdnPcs
  let tt := n.total_target + r.Eff100
  ⟨n.name, f n.children, tp, tt,
   if 0 < tt then (tp : ℚ) / (tt : ℚ) * 100 else 0,
   n.employee_count + 1,
   n.underperformer_count +
     (if r.calculate_efficiency < 85 then 1 else 0)⟩

/-- Row application at the device level (main.py 604–642): overwrite the
employee leaf (plain dict assignment, line 616) and update the totals. -/
def applyRowDevice (r : RTMSProductionData) (d : DeviceNode) : DeviceNode :=
  bumpNode r (fun emps => upsert emps r.EmpCode (mkEmpRec r)) d

def applyRowOperation (r : RTMSProductionData) (o : OperationNode) :
    OperationNode :=
  bumpNode r
    (fun devs => updateAt devs r.DeviceID (emptyNode r.DeviceID [])
      (applyRowDevice r)) o

def applyRowPart (r : RTMSProductionData) (p : PartNode) : PartNode :=
  bumpNode r
    (fun ops => updateAt ops r.NewOperSeq (emptyNode r.NewOperSeq [])
      (applyRowOperation r)) p

def applyRowStyle (r : RTMSProductionData) (st : StyleNode) : StyleNode :=
  bumpNode r
    (fun parts => updateAt parts r.PartName (emptyNode r.PartName [])
      (applyRowPart r)) st

def applyRowLine (r : RTMSProductionData) (l : LineNode) : LineNode :=
  bumpNode r
    (fun styles => updateAt styles r.StyleNo (emptyNode r.StyleNo [])
      (applyRowStyle r)) l

def applyRowFloor (r : RTMSProductionData) (fl : FloorNode) : FloorNode :=
  bumpNode r
    (fun lines => updateAt lines r.LineName (emptyNode r.LineName [])
      (applyRowLine r)) fl

def applyRowUnit (r : RTMSProductionData) (u : UnitNode) : UnitNode :=
  bumpNode r
    (fun floors => updateAt floors r.FloorName (emptyNode r.FloorName [])
      (applyRowFloor r)) u

/-- One iteration of the `for data in production_data` loop
(main.py 540–642). -/
def applyRow (h : Hierarchy) (r : RTMSProductionData) : Hierarchy :=
  updateAt h r.UnitCode (emptyNode r.UnitCode []) (applyRowUnit r)

/-- `FabricPulseRTMSEngine.get_enhanced_hierarchy_data`
(main.py 536–644). -/
def get_enhanced_hierarchy_data (rows : List RTMSProductionData) :
    Hierarchy :=
  rows.foldl applyRow []

/-- Child lookup below an optional node. -/
def childAt {χ : Type} (o : Option (NodeData (List (String × χ))))
    (k : String) : Option χ :=
  o.bind (fun n => lookupKey k n.children)

def findUnit (h : Hierarchy) (uc : String) : Option UnitNode :=
  lookupKey uc h

def findFloor (h : Hierarchy) (uc fn : String) : Option FloorNode :=
  childAt (findUnit h uc) fn

def findLine (h : Hierarchy) (uc fn ln : String) : Option LineNode :=
  childAt (findFloor h uc fn) ln

def findStyle (h : Hierarchy) (uc fn ln sn : String) : Option StyleNode :=
  childAt (findLine h uc fn ln) sn

def findPart (h : Hierarchy) (uc fn ln sn pn : String) : Option PartNode :=
  childAt (findStyle h uc fn ln sn) pn

def findOperation (h : Hierarchy) (uc fn ln sn pn opn : String) :
    Option OperationNode :=
  childAt (findPart h uc fn ln sn pn) opn

def findDevice (h : Hierarchy) (uc fn ln sn pn opn dv : String) :
    Option DeviceNode :=
  childAt (findOperation h uc fn ln sn pn opn) dv

def findEmp (h : Hierarchy) (uc fn ln sn pn opn dv ec : String) :
    Option EmpRec :=
  childAt (findDevice h uc fn ln sn pn opn dv) ec

/-- The (total_production, total_target) pair of an optional node,
(0, 0) when absent. -/
def totalsAt {χ : Type} (o : Option (NodeData χ)) : Int × Int :=
  ((o.map (·.total_production)).getD 0, (o.map (·.total_target)).getD 0)

/-- Modelled from the spec (§8 "sum over its descendant employee leaves"):
the (production, target) sums over the employee leaves below a device. -/
def leafTotalsDevice (d : DeviceNode) : Int × Int :=
  (d.children.map (fun kv => ((kv.2.production, kv.2.target) : Int × Int))).sum

/-- Employee-leaf (production, target) sums below an operation. -/
def leafTotalsOperation (o : OperationNode) : Int × Int :=
  (o.children.map (fun kv => leafTotalsDevice kv.2)).sum

/-- Employee-leaf (production, target) sums below a part. -/
def leafTotalsPart (p : PartNode) : Int × Int :=
  (p.children.map (fun kv => leafTotalsOperation kv.2)).sum

/-- Employee-leaf (production, target) sums below a style. -/
def leafTotalsStyle (st : StyleNode) : Int × Int :=
  (st.children.map (fun kv => leafTotalsPart kv.2)).sum

/-- Employee-leaf (production, target) sums below a line. -/
def leafTotalsLine (l : LineNode) : Int × Int :=
  (l.children.map (fun kv => leafTotalsStyle kv.2)).sum

/-- Employee-leaf (production, target) sums below a floor. -/
def leafTotalsFloor (fl : FloorNode) : Int × Int :=
  (fl.children.map (fun kv => leafTotalsLine kv.2)).sum

/-- Employee-leaf (production, target) sums below a unit. -/
def leafTotalsUnit (u : UnitNode) : Int × Int :=
  (u.children.map (fun kv => leafTotalsFloor kv.2)).sum

/-- The last row of the batch satisfying `q`, in batch order. -/
def lastMatchRow (rows : List RTMSProductionData)
    (q : RTMSProductionData → Prop) [DecidablePred q] :
    Option RTMSProductionData :=
  rows.foldl (fun acc r => if q r then some r else acc) none

/-! ### Claims C1 and C7 -/

/-- A row producing 10 of target 100, full path
U1/F1/L1/S1/P1/O1/D1/E1. -/
def dupRowA : RTMSProductionData :=
  ⟨"EmpOne", "E1", "D1", "S1", "L1", "Op", "U1", "P1", "F1", "O1",
   10, 100, 0, 0, 0⟩

/-- A second row for the same employee path as `dupRowA`, producing 20 of
target 100. -/
def dupRowB : RTMSProductionData :=
  ⟨"EmpOne", "E1", "D1", "S1", "L1", "Op", "U1", "P1", "F1", "O1",
   20, 100, 0, 0, 0⟩

/-! ### Claim C8 -/

/-- A property of a node's `(total_production, total_target, efficiency)`
triple, asserted of a device node. -/
def nodesOkDevice (P : Int → Int → ℚ → Prop) (d : DeviceNode) : Prop :=
  P d.total_production d.total_target d.efficiency

/-- The property holds at an operation node and at all devices below. -/
def nodesOkOperation (P : Int → Int → ℚ → Prop) (o : OperationNode) :
    Prop :=
  P o.total_production o.total_target o.efficiency ∧
  ∀ k d, lookupKey k o.children = some d → nodesOkDevice P d

/-- The property holds at a part node and at all nodes below. -/
def nodesOkPart (P : Int → Int → ℚ → Prop) (p : PartNode) : Prop :=
  P p.total_production p.total_target p.efficiency ∧
  ∀ k o, lookupKey k p.children = some o → nodesOkOperation P o

/-- The property holds at a style node and at all nodes below. -/
def nodesOkStyle (P : Int → Int → ℚ → Prop) (st : StyleNode) : Prop :=
  P st.total_production st.total_target st.efficiency ∧
  ∀ k p, lookupKey k st.children = some p → nodesOkPart P p

/-- The property holds at a line node and at all nodes below. -/
def nodesOkLine (P : Int → Int → ℚ → Prop) (l : LineNode) : Prop :=
  P l.total_production l.total_target l.efficiency ∧
  ∀ k st, lookupKey k l.children = some st → nodesOkStyle P st

/-- The property holds at a floor node and at all nodes below. -/
def nodesOkFloor (P : Int → Int → ℚ → Prop) (fl : FloorNode) : Prop :=
  P fl.total_production fl.total_target fl.efficiency ∧
  ∀ k l, lookupKey k fl.children = some l → nodesOkLine P l

/-- The property holds at a unit node and at all nodes below. -/
def nodesOkUnit (P : Int → Int → ℚ → Prop) (u : UnitNode) : Prop :=
  P u.total_production u.total_target u.efficiency ∧
  ∀ k fl, lookupKey k u.children = some fl → nodesOkFloor P fl

/-- The property holds at every node of the whole tree. -/
def nodesOkHierarchy (P : Int → Int → ℚ → Prop) (h : Hierarchy) : Prop :=
  ∀ k u, lookupKey k h = some u → nodesOkUnit P u

/-- Node invariant actually maintained by the engine: the `efficiency`
field is recomputed from the running totals (0 when the target is not
positive), and the totals are nonnegative. -/
def effInv : Int → Int → ℚ → Prop := fun tp tt e =>
  e = (if 0 < tt then (tp : ℚ) / (tt : ℚ) * 100 else 0) ∧ 0 ≤ tp ∧ 0 ≤ tt

/-- The safety property the claim asserts: `derivedEfficiency` is
nonnegative and is exactly 0 when the total target is 0. -/
def effSafe : Int → Int → ℚ → Prop := fun _ tt e =>
  0 ≤ e ∧ (tt = 0 → e = 0)

/-- A row producing 40 of target 80, for the C8 witness. -/
def c8row : RTMSProductionData :=
  ⟨"W", "W1", "D", "S", "L", "Op", "U", "P", "F", "O", 40, 80, 0, 0, 0⟩

/-! ## Theorems -/

theorem lookupKey_upsert {α β : Type} [DecidableEq α]
    (l : List (α × β)) (k k' : α) (v : β) :
    lookupKey k' (upsert l k v) =
      if k' = k then some v else lookupKey k' l := by
  induction l with
  | nil =>
    by_cases h : k' = k
    · subst h; simp [upsert, lookupKey]
    · simp [upsert, lookupKey, h, Ne.symm h]
  | cons hd tl ih =>
    obtain ⟨a, b⟩ := hd
    by_cases hak : a = k
    · subst hak
      by_cases h : k' = a
      · subst h; simp [upsert, lookupKey]
      · simp [upsert, lookupKey, h, Ne.symm h]
    · by_cases h : a = k'
      · subst h
        simp [upsert, lookupKey, hak, Ne.symm hak]
      · simp [upsert, lookupKey, hak, h, ih]

theorem lookupKey_updateAt {α β : Type} [DecidableEq α]
    (l : List (α × β)) (k k' : α) (dflt : β) (f : β → β) :
    lookupKey k' (updateAt l k dflt f) =
      if k' = k then some (f ((lookupKey k l).getD dflt))
      else lookupKey k' l := by
  induction l with
  | nil =>
    by_cases h : k' = k
    · subst h; simp [updateAt, lookupKey]
    · simp [updateAt, lookupKey, h, Ne.symm h]
  | cons hd tl ih =>
    obtain ⟨a, b⟩ := hd
    by_cases hak : a = k
    · subst hak
      by_cases h : k' = a
      · subst h; simp [updateAt, lookupKey]
      · simp [updateAt, lookupKey, h, Ne.symm h]
    · by_cases h : a = k'
      · subst h
        simp [updateAt, lookupKey, hak, Ne.symm hak]
      · simp [updateAt, lookupKey, hak, h, ih]

/-! ### Rate limiter lemmas -/

theorem can_send_alert_last_unchanged (s : WAState) (key : String)
    (now : Nat) :
    (can_send_alert s key now).2.last_alert_times = s.last_alert_times := by
  simp only [can_send_alert]
  split <;> split <;>
    first
    | rfl
    | (split <;> (try split) <;> rfl)

/-- `can_send_alert` rejects when the per-day counter has reached the cap,
before even consulting `last_alert_times` — for any key. -/
theorem can_send_alert_cap_reject (s : WAState) (key : String) (now : Nat)
    (c : Nat) (hd : lookupKey (dayOf now) s.daily_alert_count = some c)
    (hc : max_alerts_per_day ≤ c) :
    (can_send_alert s key now).1 = false := by
  simp [can_send_alert, hd, hc]

/-- `can_send_alert` rejects when the key was last recorded less than
`min_alert_interval` minutes ago. -/
theorem can_send_alert_recent_reject (s : WAState) (key : String)
    (now last : Nat) (hl : lookupKey key s.last_alert_times = some last)
    (h : now - last < min_alert_interval) :
    (can_send_alert s key now).1 = false := by
  simp only [can_send_alert, hl]
  split <;> split <;> simp [h]

/-- `can_send_alert` accepts when the day counter is present and below the
cap and every recorded last-send for the key is at least
`min_alert_interval` minutes old. -/
theorem can_send_alert_accept (s : WAState) (key : String) (now : Nat)
    (c : Nat) (hd : lookupKey (dayOf now) s.daily_alert_count = some c)
    (hc : c < max_alerts_per_day)
    (hl : ∀ last, lookupKey key s.last_alert_times = some last →
      min_alert_interval ≤ now - last) :
    (can_send_alert s key now).1 = true := by
  cases h : lookupKey key s.last_alert_times with
  | none => simp [can_send_alert, hd, h, Nat.not_le.mpr hc]
  | some last =>
    have h5 := hl last h
    simp [can_send_alert, hd, h, Nat.not_le.mpr hc, Nat.not_lt.mpr h5]

theorem record_alert_sent_last (s : WAState) (key k : String) (now : Nat) :
    lookupKey k (record_alert_sent s key now).last_alert_times =
      if k = key then some now else lookupKey k s.last_alert_times := by
  unfold record_alert_sent
  cases h : lookupKey (dayOf now) s.daily_alert_count <;>
    simp [lookupKey_upsert]

theorem record_alert_sent_daily (s : WAState) (key : String) (now d : Nat) :
    lookupKey d (record_alert_sent s key now).daily_alert_count =
      if d = dayOf now then
        some ((lookupKey (dayOf now) s.daily_alert_count).getD 0 + 1)
      else lookupKey d s.daily_alert_count := by
  unfold record_alert_sent
  cases h : lookupKey (dayOf now) s.daily_alert_count with
  | none => simp [lookupKey_upsert, h]
  | some c => simp [lookupKey_upsert, h]

theorem applyRecords_cons (s : WAState) (kt : String × Nat)
    (rs : List (String × Nat)) :
    applyRecords s (kt :: rs) =
      applyRecords (record_alert_sent s kt.1 kt.2) rs := rfl

theorem applyRecords_day_count (rs : List (String × Nat)) (d : Nat)
    (hday : ∀ kt ∈ rs, dayOf kt.2 = d) (s : WAState) (hne : rs ≠ []) :
    lookupKey d (applyRecords s rs).daily_alert_count =
      some ((lookupKey d s.daily_alert_count).getD 0 + rs.length) := by
  induction rs generalizing s with
  | nil => exact absurd rfl hne
  | cons kt rest ih =>
    have hd : dayOf kt.2 = d := hday kt (List.mem_cons_self _ _)
    rw [applyRecords_cons]
    by_cases hr : rest = []
    · subst hr
      simp [applyRecords, record_alert_sent_daily, hd]
    · rw [ih (fun x hx => hday x (List.mem_cons_of_mem _ hx)) _ hr]
      rw [record_alert_sent_daily]
      simp [hd]
      omega

/-! ### Claims C4 and C5 -/

/-- C4: if `can_send_alert` accepts for a key at time `t` and
`record_alert_sent` is then called, a further `can_send_alert` call for the
same key at `t'` with `t' - t < min_alert_interval` returns `false`, and a
call at `t'` with `min_alert_interval ≤ t' - t`, on the same calendar day
and with the daily counter below `max_alerts_per_day`, returns `true`
again. -/
theorem c4_min_interval_spacing (s : WAState) (key : String) (t t' : Nat)
    (hacc : (can_send_alert s key t).1 = true) :
    (t ≤ t' → t' - t < min_alert_interval →
       (can_send_alert (record_alert_sent (can_send_alert s key t).2 key t)
         key t').1 = false)
    ∧ (dayOf t' = dayOf t → min_alert_interval ≤ t' - t →
       ∀ c, lookupKey (dayOf t')
           (record_alert_sent (can_send_alert s key t).2 key t).daily_alert_count
             = some c →
         c < max_alerts_per_day →
         (can_send_alert (record_alert_sent (can_send_alert s key t).2 key t)
           key t').1 = true) := by
  constructor
  · intro _ hlt
    apply can_send_alert_recent_reject _ _ _ t _ hlt
    rw [record_alert_sent_last]
    simp
  · intro _ hge c hdc hcap
    apply can_send_alert_accept _ _ _ c hdc hcap
    intro last hlast
    rw [record_alert_sent_last, if_pos rfl] at hlast
    cases hlast
    exact hge

/-- Witness for C4 at a concrete run: accepted send recorded at minute 0; a
re-check 1 minute later is rejected, a re-check 6 minutes later (same day,
counter 1 < 50) is accepted. -/
theorem c4_min_interval_spacing_witness :
    (can_send_alert (record_alert_sent (can_send_alert WAState.init "k" 0).2
        "k" 0) "k" 1).1 = false
    ∧ (can_send_alert (record_alert_sent (can_send_alert WAState.init "k" 0).2
        "k" 0) "k" 6).1 = true :=
  ⟨(c4_min_interval_spacing WAState.init "k" 0 1 (by decide)).1 (by decide)
      (by decide),
   (c4_min_interval_spacing WAState.init "k" 0 6 (by decide)).2 (by decide)
      (by decide) 1 (by decide) (by decide)⟩

/-- C5: after at least `max_alerts_per_day` recorded sends whose timestamps
all fall on calendar day `d`, every further `can_send_alert` call on day `d`
returns `false`, for every alert key — in particular also for keys whose
per-key minimum-interval rule would accept, showing the daily cap is
decisive on its own. -/
theorem c5_daily_cap_regardless_of_key (s : WAState)
    (rs : List (String × Nat)) (d now : Nat)
    (hday : ∀ kt ∈ rs, dayOf kt.2 = d)
    (hcnt : max_alerts_per_day ≤ rs.length)
    (hnow : dayOf now = d) :
    ∀ key, (can_send_alert (applyRecords s rs) key now).1 = false := by
  intro key
  have hne : rs ≠ [] := by
    intro h
    subst h
    simp [max_alerts_per_day] at hcnt
  have hd := applyRecords_day_count rs d hday s hne
  apply can_send_alert_cap_reject _ key now
    ((lookupKey d s.daily_alert_count).getD 0 + rs.length)
  · rw [hnow]
    exact hd
  · omega

/-- Witness for C5: 50 recorded sends at minute 0 (day 0); a later call on
day 0 for a fresh key is rejected. -/
theorem c5_daily_cap_regardless_of_key_witness :
    (can_send_alert (applyRecords WAState.init (List.replicate 50 ("k", 0)))
      "other" 10).1 = false :=
  c5_daily_cap_regardless_of_key WAState.init (List.replicate 50 ("k", 0))
    0 10 (by decide) (by decide) (by decide) "other"

/-! ### Claims C6 and C10 -/

theorem can_send_alert_daily_reset (s : WAState) (key : String) (now : Nat)
    (h : lookupKey (dayOf now) s.daily_alert_count = none) :
    (can_send_alert s key now).2.daily_alert_count = [(dayOf now, 0)] := by
  simp only [can_send_alert, h, Option.isNone_none, if_true]
  split <;> (try split) <;> (try split) <;> rfl

/-- C6 counterexample: at a state where the rate check accepts (fresh
service, key `"k"`, minute 0) and the dispatch fails for both recipients,
`send_alert` does not invoke `record_alert_sent`: `last_alert_times` stays
empty and the day counter stays 0 — the claim that the attempt itself
consumes quota is false on this code. -/
theorem c6_counterexample :
    (can_send_alert WAState.init "k" 0).1 = true
    ∧ (send_alert WAState.init "k" 0 [false, false]).2.last_alert_times = []
    ∧ lookupKey 0
        (send_alert WAState.init "k" 0 [false, false]).2.daily_alert_count
        = some 0 := by
  decide

/-- C6 amended: when the rate check accepts and the downstream dispatch
then fails for every recipient, `record_alert_sent` is NOT invoked —
`send_alert` returns `false` and leaves the ledger exactly as
`can_send_alert` left it (in particular `last_alert_times` is unchanged);
quota is consumed only when at least one recipient send succeeds. -/
theorem c6_no_quota_on_total_dispatch_failure (s : WAState) (key : String)
    (now : Nat) (results : List Bool)
    (hok : (can_send_alert s key now).1 = true)
    (hfail : ∀ r ∈ results, r = false) :
    send_alert s key now results = (false, (can_send_alert s key now).2)
    ∧ (send_alert s key now results).2.last_alert_times =
        s.last_alert_times := by
  have hfil : results.filter id = [] := by
    rw [List.filter_eq_nil_iff]
    intro a ha
    simp [hfail a ha]
  rcases hcs : can_send_alert s key now with ⟨ok, st⟩
  rw [hcs] at hok
  simp only at hok
  subst hok
  have hlast : st.last_alert_times = s.last_alert_times := by
    have := can_send_alert_last_unchanged s key now
    rw [hcs] at this
    exact this
  simp [send_alert, hcs, hfil, hlast]

/-- Witness for C6 amended: fresh service, one failing recipient. -/
theorem c6_no_quota_on_total_dispatch_failure_witness :
    send_alert WAState.init "k" 0 [false]
      = (false, (can_send_alert WAState.init "k" 0).2)
    ∧ (send_alert WAState.init "k" 0 [false]).2.last_alert_times =
        WAState.init.last_alert_times :=
  c6_no_quota_on_total_dispatch_failure WAState.init "k" 0 [false]
    (by decide) (by decide)

/-- C10 counterexample: a `last_alert_times` entry recorded at minute 0 is
still present after rate-limiter activity at minute 6000 — more than 48
hours (2880 minutes) later — so ledger entries older than 48 hours are NOT
evicted. -/
theorem c10_counterexample :
    lookupKey "k"
      ((can_send_alert (record_alert_sent WAState.init "k" 0) "k"
        6000).2.last_alert_times) = some 0
    ∧ 2880 < 6000 - 0 := by
  decide

/-- C10 amended: the only eviction the ledger performs is that
`can_send_alert`, on a calendar day absent from `daily_alert_count`,
replaces the whole per-day map by `{today: 0}` (dropping every older day
counter); per-key `last_alert_times` entries are never removed —
`can_send_alert` leaves them untouched and `record_alert_sent` preserves
every other key — so they can persist arbitrarily longer than 48 hours. -/
theorem c10_ledger_retention (s : WAState) (key : String) (now : Nat) :
    (lookupKey (dayOf now) s.daily_alert_count = none →
      (can_send_alert s key now).2.daily_alert_count = [(dayOf now, 0)])
    ∧ (can_send_alert s key now).2.last_alert_times = s.last_alert_times
    ∧ ∀ k', k' ≠ key →
        lookupKey k' (record_alert_sent s key now).last_alert_times =
          lookupKey k' s.last_alert_times := by
  refine ⟨fun h => can_send_alert_daily_reset s key now h,
    can_send_alert_last_unchanged s key now, fun k' hk' => ?_⟩
  rw [record_alert_sent_last, if_neg hk']

/-- Witness for C10 amended: a stale key `"old"` (minute 0) survives both a
`can_send_alert` day rollover and a `record_alert_sent` for another key at
minute 6000. -/
theorem c10_ledger_retention_witness :
    ((can_send_alert (⟨[("old", 0)], [(0, 3)]⟩ : WAState) "k"
        6000).2.daily_alert_count = [(4, 0)])
    ∧ (can_send_alert (⟨[("old", 0)], [(0, 3)]⟩ : WAState) "k"
        6000).2.last_alert_times = [("old", 0)]
    ∧ lookupKey "old"
        (record_alert_sent (⟨[("old", 0)], [(0, 3)]⟩ : WAState) "k"
          6000).last_alert_times = lookupKey "old"
        ([("old", 0)] : List (String × Nat)) :=
  ⟨(c10_ledger_retention ⟨[("old", 0)], [(0, 3)]⟩ "k" 6000).1 (by decide),
   (c10_ledger_retention ⟨[("old", 0)], [(0, 3)]⟩ "k" 6000).2.1,
   (c10_ledger_retention ⟨[("old", 0)], [(0, 3)]⟩ "k" 6000).2.2 "old"
     (by decide)⟩

theorem bandRank_performance_category (e : ℚ) :
    bandRank (performance_category e) =
      if 95 ≤ e then 3 else if 85 ≤ e then 2 else if 70 ≤ e then 1 else 0 := by
  unfold performance_category
  split_ifs <;> rfl

theorem bandRank_get_efficiency_status (gt ct e : ℚ) :
    bandRank (get_efficiency_status gt ct e) =
      if 100 ≤ e then 3 else if gt ≤ e then 2 else if ct ≤ e then 1 else 0 := by
  unfold get_efficiency_status
  split_ifs <;> rfl

theorem categorize_performance_go (effs : List ℚ) (a b c d : List ℚ) :
    effs.foldl catStep (a, b, c, d) =
      (a ++ effs.filter (fun e => decide (95 ≤ e)),
       b ++ effs.filter (fun e => decide (85 ≤ e ∧ ¬ 95 ≤ e)),
       c ++ effs.filter (fun e => decide (70 ≤ e ∧ ¬ 85 ≤ e)),
       d ++ effs.filter (fun e => decide (¬ 70 ≤ e))) := by
  induction effs generalizing a b c d with
  | nil => simp
  | cons e rest ih =>
    simp only [List.foldl_cons, List.filter_cons]
    rw [ih]
    by_cases h1 : 95 ≤ e
    · have h2 : (85 : ℚ) ≤ e := by linarith
      have h3 : (70 : ℚ) ≤ e := by linarith
      simp [catStep, h1, h2, h3]
    · by_cases h2 : 85 ≤ e
      · have h3 : (70 : ℚ) ≤ e := by linarith
        simp [catStep, h1, h2, h3]
      · by_cases h3 : 70 ≤ e
        · simp [catStep, h1, h2, h3]
        · simp [catStep, h1, h2, h3]

/-! ### Claim C2 -/

/-- C2 counterexample: in `_get_efficiency_status` (with the default
configuration thresholds) an efficiency of 96 — which is `≥ 95` — is
classified `"good"`, not `"excellent"`: the claim's `excellent ≥ 95` rule is
false for this cited classifier, whose excellent cutoff is 100. -/
theorem c2_counterexample :
    ¬ ∀ eff : ℚ, 95 ≤ eff →
      get_efficiency_status efficiency_threshold critical_threshold eff
        = "excellent" := by
  intro h
  have h96 := h 96 (by norm_num)
  rw [show get_efficiency_status efficiency_threshold critical_threshold 96
      = "good" from by decide] at h96
  exact absurd h96 (by decide)

/-- C2 amended: both classifiers are total (every efficiency maps to
exactly one of the four bands) and monotonic, for every choice of the
configurable thresholds.  `categorize_performance` uses the fixed
thresholds (95, 85, 70) and maps 96, 90, 80, 60 to excellent, good,
needs_improvement, critical; `_get_efficiency_status` instead maps
`efficiency ≥ 100` to excellent, `≥ efficiency_threshold` (default 85) to
good, `≥ critical_threshold` (default 70) to needs_improvement, else
critical — so with the defaults 96 and 90 are both `"good"`. -/
theorem c2_classifier_total_monotonic :
    (∀ e1 e2 : ℚ, e1 ≤ e2 →
      bandRank (performance_category e1) ≤ bandRank (performance_category e2))
    ∧ (∀ gt ct e1 e2 : ℚ, e1 ≤ e2 →
      bandRank (get_efficiency_status gt ct e1) ≤
        bandRank (get_efficiency_status gt ct e2))
    ∧ (∀ e : ℚ, performance_category e = "excellent"
        ∨ performance_category e = "good"
        ∨ performance_category e = "needs_improvement"
        ∨ performance_category e = "critical")
    ∧ (∀ gt ct e : ℚ, get_efficiency_status gt ct e = "excellent"
        ∨ get_efficiency_status gt ct e = "good"
        ∨ get_efficiency_status gt ct e = "needs_improvement"
        ∨ get_efficiency_status gt ct e = "critical")
    ∧ (∀ effs : List ℚ, categorize_performance effs =
        (effs.filter (fun e => decide (95 ≤ e)),
         effs.filter (fun e => decide (85 ≤ e ∧ ¬ 95 ≤ e)),
         effs.filter (fun e => decide (70 ≤ e ∧ ¬ 85 ≤ e)),
         effs.filter (fun e => decide (¬ 70 ≤ e))))
    ∧ performance_category 96 = "excellent"
    ∧ performance_category 90 = "good"
    ∧ performance_category 80 = "needs_improvement"
    ∧ performance_category 60 = "critical"
    ∧ get_efficiency_status efficiency_threshold critical_threshold 96
        = "good"
    ∧ get_efficiency_status efficiency_threshold critical_threshold 90
        = "good"
    ∧ get_efficiency_status efficiency_threshold critical_threshold 80
        = "needs_improvement"
    ∧ get_efficiency_status efficiency_threshold critical_threshold 60
        = "critical"
    ∧ (∀ e : ℚ, 100 ≤ e →
        get_efficiency_status efficiency_threshold critical_threshold e
          = "excellent") := by
  refine ⟨?_, ?_, ?_, ?_, ?_, by decide, by decide, by decide, by decide,
    by decide, by decide, by decide, by decide, ?_⟩
  · intro e1 e2 h
    rw [bandRank_performance_category, bandRank_performance_category]
    split_ifs <;> first | omega | linarith
  · intro gt ct e1 e2 h
    rw [bandRank_get_efficiency_status, bandRank_get_efficiency_status]
    split_ifs <;> first | omega | linarith
  · intro e
    unfold performance_category
    split_ifs <;> simp
  · intro gt ct e
    unfold get_efficiency_status
    split_ifs <;> simp
  · intro effs
    exact categorize_performance_go effs [] [] [] []
  · intro e he
    unfold get_efficiency_status
    rw [if_pos he]

/-- Witness for C2 amended: monotonicity applied at 60 ≤ 96 for both
classifiers with the default thresholds. -/
theorem c2_classifier_total_monotonic_witness :
    bandRank (performance_category 60) ≤ bandRank (performance_category 96)
    ∧ bandRank (get_efficiency_status efficiency_threshold
        critical_threshold 60) ≤
      bandRank (get_efficiency_status efficiency_threshold
        critical_threshold 96) :=
  ⟨c2_classifier_total_monotonic.1 60 96 (by norm_num),
   c2_classifier_total_monotonic.2.1 efficiency_threshold critical_threshold
     60 96 (by norm_num)⟩

theorem identify_underperformers_go (effs : List EmpEff)
    (acc : List UnderperformerEntry) :
    effs.foldl
      (fun acc e =>
        if e.efficiency < 85 then acc ++ [mkUnderperformer e] else acc) acc
      = acc ++ (effs.filter (fun e => decide (e.efficiency < 85))).map
          mkUnderperformer := by
  induction effs generalizing acc with
  | nil => simp
  | cons e rest ih =>
    simp only [List.foldl_cons, List.filter_cons]
    by_cases h : e.efficiency < 85
    · simp [h, ih]
    · simp [h, ih]

/-! ### Claim C9 -/

/-- C9 counterexample: a row with efficiency 80 yields one
`UnderperformerEntry` (priority `"MEDIUM"`), but `send_whatsapp_alerts`
hands none of it to the dispatcher — the entry is dropped before the
rate-limit check is ever consulted, refuting "no entry is dropped before
the rate-limit check". -/
theorem c9_counterexample :
    (identify_underperformers [⟨"E", "C", "L", "U", "O", 80⟩]).length = 1
    ∧ (identify_underperformers
        [⟨"E", "C", "L", "U", "O", 80⟩]).map (·.alert_priority) = ["MEDIUM"]
    ∧ send_whatsapp_alerts_attempted
        (identify_underperformers [⟨"E", "C", "L", "U", "O", 80⟩]) = [] := by
  decide

/-- C9 amended: `identify_underperformers` produces one entry per row with
efficiency < 85 (priority `"HIGH"` iff efficiency < 70, else `"MEDIUM"`),
but `send_whatsapp_alerts` consults the rate limiter (and dispatches) only
for the `"HIGH"`/`"CRITICAL"`-priority entries — i.e. exactly for the rows
with efficiency < 70; `"MEDIUM"`-priority entries are dropped before the
rate-limit check. -/
theorem c9_only_high_priority_dispatched (effs : List EmpEff) :
    identify_underperformers effs =
      (effs.filter (fun e => decide (e.efficiency < 85))).map
        mkUnderperformer
    ∧ send_whatsapp_alerts_attempted (identify_underperformers effs) =
      (effs.filter (fun e => decide (e.efficiency < 70))).map
        mkUnderperformer := by
  constructor
  · simpa using identify_underperformers_go effs []
  · rw [show identify_underperformers effs =
        (effs.filter (fun e => decide (e.efficiency < 85))).map
          mkUnderperformer from by
        simpa using identify_underperformers_go effs []]
    induction effs with
    | nil => rfl
    | cons e rest ih =>
      by_cases h85 : e.efficiency < 85
      · by_cases h70 : e.efficiency < 70
        · simp only [List.filter_cons]
          rw [if_pos (show decide (e.efficiency < 85) = true by
                simp [h85]),
              if_pos (show decide (e.efficiency < 70) = true by
                simp [h70])]
          simp only [List.map_cons]
          have hpr : (mkUnderperformer e).alert_priority = "HIGH" := by
            simp [mkUnderperformer, h70]
          have hstep : ∀ L, send_whatsapp_alerts_attempted
              (mkUnderperformer e :: L)
              = mkUnderperformer e :: send_whatsapp_alerts_attempted L := by
            intro L
            unfold send_whatsapp_alerts_attempted
            rw [List.filter_cons, if_pos (by rw [hpr]; decide)]
          rw [hstep, ih]
        · simp only [List.filter_cons]
          rw [if_pos (show decide (e.efficiency < 85) = true by
                simp [h85]),
              if_neg (show ¬ decide (e.efficiency < 70) = true by
                simp [h70])]
          simp only [List.map_cons]
          have hpr : (mkUnderperformer e).alert_priority = "MEDIUM" := by
            simp [mkUnderperformer, h70]
          have hstep : ∀ L, send_whatsapp_alerts_attempted
              (mkUnderperformer e :: L)
              = send_whatsapp_alerts_attempted L := by
            intro L
            unfold send_whatsapp_alerts_attempted
            rw [List.filter_cons, if_neg (by rw [hpr]; decide)]
          rw [hstep, ih]
      · have h70 : ¬ e.efficiency < 70 := fun h => h85 (by linarith)
        simp only [List.filter_cons]
        rw [if_neg (show ¬ decide (e.efficiency < 85) = true by
              simp [h85]),
            if_neg (show ¬ decide (e.efficiency < 70) = true by
              simp [h70])]
        exact ih

/-! ### Claim C3 -/

theorem process_go (pending : List RTMSProductionData) :
    ∀ ops0 und0 : List Operator,
    (pending.foldl processStep (ops0, und0)).2 =
      und0 ++ (List.range pending.length).filterMap (fun i =>
        match (pending.map mkOperator).get? i with
        | some op =>
          if should_send_whatsapp op
              (ops0 ++ (pending.map mkOperator).take (i + 1))
          then some op else none
        | none => none) := by
  induction pending with
  | nil =>
    intro ops0 und0
    simp
  | cons r rest ih =>
    intro ops0 und0
    rw [List.foldl_cons]
    show (rest.foldl processStep (ops0 ++ [mkOperator r],
        if should_send_whatsapp (mkOperator r) (ops0 ++ [mkOperator r])
        then und0 ++ [mkOperator r] else und0)).2 = _
    rw [ih]
    rw [List.length_cons, List.range_succ_eq_map, List.filterMap_cons,
      List.filterMap_map]
    have hfun : ((fun i =>
        match ((r :: rest).map mkOperator).get? i with
        | some op =>
          if should_send_whatsapp op
              (ops0 ++ ((r :: rest).map mkOperator).take (i + 1))
          then some op else none
        | none => none) ∘ Nat.succ) = (fun i =>
        match (rest.map mkOperator).get? i with
        | some op =>
          if should_send_whatsapp op
              ((ops0 ++ [mkOperator r]) ++ (rest.map mkOperator).take (i + 1))
          then some op else none
        | none => none) := by
      funext i
      simp [List.take_succ_cons, List.append_assoc]
    rw [hfun]
    by_cases hflag : should_send_whatsapp (mkOperator r)
        (ops0 ++ [mkOperator r])
    · simp only [List.map_cons, List.get?_cons_zero, List.take_succ_cons,
        List.take_zero, hflag, if_true]
      simp [List.append_assoc]
    · simp only [List.map_cons, List.get?_cons_zero, List.take_succ_cons,
        List.take_zero, hflag, if_false]
      simp

theorem should_send_whatsapp_peer_max (emp : Operator) (l : List Operator)
    (hmem : emp ∈ l) :
    should_send_whatsapp emp l =
      decide (emp.efficiency < spec_peer_benchmark l emp * (85 / 100)) := by
  have hne : l ≠ [] := List.ne_nil_of_mem hmem
  have hememf : emp ∈ l.filter
      (fun p => decide (p.line_name = emp.line_name
        ∧ p.new_oper_seq = emp.new_oper_seq)) :=
    List.mem_filter.mpr ⟨hmem, by simp⟩
  obtain ⟨p, ps, hf⟩ : ∃ p ps, l.filter
      (fun p => decide (p.line_name = emp.line_name
        ∧ p.new_oper_seq = emp.new_oper_seq)) = p :: ps := by
    cases hfx : l.filter
        (fun p => decide (p.line_name = emp.line_name
          ∧ p.new_oper_seq = emp.new_oper_seq)) with
    | nil =>
      rw [hfx] at hememf
      simp at hememf
    | cons p ps => exact ⟨p, ps, rfl⟩
  simp only [should_send_whatsapp, spec_peer_benchmark]
  rw [if_neg hne]
  simp only [hf]
  simp [listMaxQ]

theorem should_send_whatsapp_singleton_group (emp : Operator)
    (l : List Operator) (hmem : emp ∈ l)
    (hlen : (l.filter (fun p => decide (p.line_name = emp.line_name
      ∧ p.new_oper_seq = emp.new_oper_seq))).length ≤ 1)
    (h0 : 0 ≤ emp.efficiency) :
    should_send_whatsapp emp l = false := by
  have hememf : emp ∈ l.filter
      (fun p => decide (p.line_name = emp.line_name
        ∧ p.new_oper_seq = emp.new_oper_seq)) :=
    List.mem_filter.mpr ⟨hmem, by simp⟩
  have hfe : l.filter (fun p => decide (p.line_name = emp.line_name
      ∧ p.new_oper_seq = emp.new_oper_seq)) = [emp] := by
    obtain ⟨p, ps, hf⟩ : ∃ p ps, l.filter
        (fun p => decide (p.line_name = emp.line_name
          ∧ p.new_oper_seq = emp.new_oper_seq)) = p :: ps := by
      cases hfx : l.filter
          (fun p => decide (p.line_name = emp.line_name
            ∧ p.new_oper_seq = emp.new_oper_seq)) with
      | nil =>
        rw [hfx] at hememf
        simp at hememf
      | cons p ps => exact ⟨p, ps, rfl⟩
    rw [hf] at hememf hlen ⊢
    cases ps with
    | nil =>
      simp at hememf
      rw [hememf]
    | cons q qs => simp at hlen
  simp only [should_send_whatsapp]
  rw [if_neg (List.ne_nil_of_mem hmem), hfe]
  have hnot : ¬ emp.efficiency < emp.efficiency * (85 / 100) := by
    intro hlt
    linarith
  simp [listMaxQ, hnot]

/-- C3 counterexample: for the batch `[low50, high100]` (same line and
operation) the efficiency-50 row is strictly below 85% of the batch peer
benchmark (100), yet the code flags nothing — because the benchmark pool
when the 50-row is processed contains only the rows seen so far.  With the
reversed batch order the 50-row IS flagged: the decision is
order-dependent, refuting both the whole-batch-maximum rule and order
independence. -/
theorem c3_counterexample :
    process_efficiency_underperformers [c3rowLow, c3rowHigh] = []
    ∧ (mkOperator c3rowLow).efficiency <
        spec_peer_benchmark ([c3rowLow, c3rowHigh].map mkOperator)
          (mkOperator c3rowLow) * (85 / 100)
    ∧ process_efficiency_underperformers [c3rowHigh, c3rowLow]
        = [mkOperator c3rowLow] :=
  ⟨by with_unfolding_all rfl,
   of_decide_eq_true (by with_unfolding_all rfl),
   by with_unfolding_all rfl⟩

/-- C3 amended: a row is flagged iff its rounded efficiency is strictly
below `0.85 ×` the maximum efficiency among the rows UP TO AND INCLUDING it
in batch order that share its `(line, operation)` pair (the pool is the
`operators` list built so far, not the whole batch — so the decision
depends on row order); `should_send_whatsapp` against any pool containing
the row equals the comparison with that pool's group maximum; and a row
whose group within the pool is a singleton is never flagged (given its
efficiency is nonnegative). -/
theorem c3_flagged_iff_running_peer_benchmark :
    (∀ data : List RTMSProductionData,
      process_efficiency_underperformers data = flaggedByBatchOrder data)
    ∧ (∀ (emp : Operator) (l : List Operator), emp ∈ l →
      should_send_whatsapp emp l =
        decide (emp.efficiency < spec_peer_benchmark l emp * (85 / 100)))
    ∧ (∀ (emp : Operator) (l : List Operator), emp ∈ l →
      (l.filter (fun p => decide (p.line_name = emp.line_name
        ∧ p.new_oper_seq = emp.new_oper_seq))).length ≤ 1 →
      0 ≤ emp.efficiency → should_send_whatsapp emp l = false) := by
  refine ⟨fun data => ?_, should_send_whatsapp_peer_max,
    should_send_whatsapp_singleton_group⟩
  unfold process_efficiency_underperformers flaggedByBatchOrder
  rw [process_go data [] []]
  simp

/-- Witness for C3 amended: a singleton pool — the detector result equals
the benchmark comparison, and the row is not flagged. -/
theorem c3_flagged_iff_running_peer_benchmark_witness :
    should_send_whatsapp ⟨"a", "c", "L", "U", "O", 50, "s"⟩
        [⟨"a", "c", "L", "U", "O", 50, "s"⟩]
      = decide ((⟨"a", "c", "L", "U", "O", 50, "s"⟩ : Operator).efficiency
          < spec_peer_benchmark [⟨"a", "c", "L", "U", "O", 50, "s"⟩]
              ⟨"a", "c", "L", "U", "O", 50, "s"⟩ * (85 / 100))
    ∧ should_send_whatsapp ⟨"a", "c", "L", "U", "O", 50, "s"⟩
        [⟨"a", "c", "L", "U", "O", 50, "s"⟩] = false :=
  ⟨c3_flagged_iff_running_peer_benchmark.2.1 _ _ (by simp),
   c3_flagged_iff_running_peer_benchmark.2.2 _ _ (by simp) (by decide)
     (by norm_num)⟩

/-! ### Aggregation lemmas -/

theorem childAt_some {χ : Type} (n : NodeData (List (String × χ)))
    (k : String) : childAt (some n) k = lookupKey k n.children := rfl

theorem lookupKey_getD_children {χ : Type}
    (o : Option (NodeData (List (String × χ)))) (k nm : String) :
    lookupKey k ((o.getD (emptyNode nm [])).children) = childAt o k := by
  cases o <;> simp [childAt, emptyNode, lookupKey]

theorem applyRowUnit_children (r : RTMSProductionData) (u : UnitNode) :
    (applyRowUnit r u).children =
      updateAt u.children r.FloorName (emptyNode r.FloorName [])
        (applyRowFloor r) := rfl

theorem applyRowFloor_children (r : RTMSProductionData) (fl : FloorNode) :
    (applyRowFloor r fl).children =
      updateAt fl.children r.LineName (emptyNode r.LineName [])
        (applyRowLine r) := rfl

theorem applyRowLine_children (r : RTMSProductionData) (l : LineNode) :
    (applyRowLine r l).children =
      updateAt l.children r.StyleNo (emptyNode r.StyleNo [])
        (applyRowStyle r) := rfl

theorem applyRowStyle_children (r : RTMSProductionData) (st : StyleNode) :
    (applyRowStyle r st).children =
      updateAt st.children r.PartName (emptyNode r.PartName [])
        (applyRowPart r) := rfl

theorem applyRowPart_children (r : RTMSProductionData) (p : PartNode) :
    (applyRowPart r p).children =
      updateAt p.children r.NewOperSeq (emptyNode r.NewOperSeq [])
        (applyRowOperation r) := rfl

theorem applyRowOperation_children (r : RTMSProductionData)
    (o : OperationNode) :
    (applyRowOperation r o).children =
      updateAt o.children r.DeviceID (emptyNode r.DeviceID [])
        (applyRowDevice r) := rfl

theorem applyRowDevice_children (r : RTMSProductionData) (d : DeviceNode) :
    (applyRowDevice r d).children =
      upsert d.children r.EmpCode (mkEmpRec r) := rfl

theorem findUnit_applyRow (h : Hierarchy) (r : RTMSProductionData)
    (uc : String) :
    findUnit (applyRow h r) uc =
      if uc = r.UnitCode then
        some (applyRowUnit r ((findUnit h uc).getD (emptyNode r.UnitCode [])))
      else findUnit h uc := by
  unfold findUnit applyRow
  rw [lookupKey_updateAt]
  by_cases hc : uc = r.UnitCode
  · rw [if_pos hc, if_pos hc, hc]
  · rw [if_neg hc, if_neg hc]

theorem findFloor_applyRow (h : Hierarchy) (r : RTMSProductionData)
    (uc fn : String) :
    findFloor (applyRow h r) uc fn =
      if uc = r.UnitCode ∧ fn = r.FloorName then
        some (applyRowFloor r
          ((findFloor h uc fn).getD (emptyNode r.FloorName [])))
      else findFloor h uc fn := by
  unfold findFloor
  rw [findUnit_applyRow]
  by_cases hc : uc = r.UnitCode
  · rw [if_pos hc, childAt_some, applyRowUnit_children, lookupKey_updateAt]
    simp only [lookupKey_getD_children]
    by_cases hf : fn = r.FloorName
    · rw [if_pos hf, if_pos ⟨hc, hf⟩, hf]
    · rw [if_neg hf, if_neg (fun hh => hf hh.2)]
  · rw [if_neg hc, if_neg (fun hh => hc hh.1)]

theorem findLine_applyRow (h : Hierarchy) (r : RTMSProductionData)
    (uc fn ln : String) :
    findLine (applyRow h r) uc fn ln =
      if uc = r.UnitCode ∧ fn = r.FloorName ∧ ln = r.LineName then
        some (applyRowLine r
          ((findLine h uc fn ln).getD (emptyNode r.LineName [])))
      else findLine h uc fn ln := by
  unfold findLine
  rw [findFloor_applyRow]
  by_cases hc : uc = r.UnitCode ∧ fn = r.FloorName
  · rw [if_pos hc, childAt_some, applyRowFloor_children, lookupKey_updateAt]
    simp only [lookupKey_getD_children]
    by_cases hx : ln = r.LineName
    · rw [if_pos hx, if_pos ⟨hc.1, hc.2, hx⟩, hx]
    · rw [if_neg hx, if_neg (fun hh => hx hh.2.2)]
  · rw [if_neg hc, if_neg (fun hh => hc ⟨hh.1, hh.2.1⟩)]

theorem findStyle_applyRow (h : Hierarchy) (r : RTMSProductionData)
    (uc fn ln sn : String) :
    findStyle (applyRow h r) uc fn ln sn =
      if uc = r.UnitCode ∧ fn = r.FloorName ∧ ln = r.LineName
          ∧ sn = r.StyleNo then
        some (applyRowStyle r
          ((findStyle h uc fn ln sn).getD (emptyNode r.StyleNo [])))
      else findStyle h uc fn ln sn := by
  unfold findStyle
  rw [findLine_applyRow]
  by_cases hc : uc = r.UnitCode ∧ fn = r.FloorName ∧ ln = r.LineName
  · rw [if_pos hc, childAt_some, applyRowLine_children, lookupKey_updateAt]
    simp only [lookupKey_getD_children]
    by_cases hx : sn = r.StyleNo
    · rw [if_pos hx, if_pos ⟨hc.1, hc.2.1, hc.2.2, hx⟩, hx]
    · rw [if_neg hx, if_neg (fun hh => hx hh.2.2.2)]
  · rw [if_neg hc, if_neg (fun hh => hc ⟨hh.1, hh.2.1, hh.2.2.1⟩)]

theorem findPart_applyRow (h : Hierarchy) (r : RTMSProductionData)
    (uc fn ln sn pn : String) :
    findPart (applyRow h r) uc fn ln sn pn =
      if uc = r.UnitCode ∧ fn = r.FloorName ∧ ln = r.LineName
          ∧ sn = r.StyleNo ∧ pn = r.PartName then
        some (applyRowPart r
          ((findPart h uc fn ln sn pn).getD (emptyNode r.PartName [])))
      else findPart h uc fn ln sn pn := by
  unfold findPart
  rw [findStyle_applyRow]
  by_cases hc : uc = r.UnitCode ∧ fn = r.FloorName ∧ ln = r.LineName
      ∧ sn = r.StyleNo
  · rw [if_pos hc, childAt_some, applyRowStyle_children, lookupKey_updateAt]
    simp only [lookupKey_getD_children]
    by_cases hx : pn = r.PartName
    · rw [if_pos hx, if_pos ⟨hc.1, hc.2.1, hc.2.2.1, hc.2.2.2, hx⟩, hx]
    · rw [if_neg hx, if_neg (fun hh => hx hh.2.2.2.2)]
  · rw [if_neg hc, if_neg (fun hh => hc ⟨hh.1, hh.2.1, hh.2.2.1, hh.2.2.2.1⟩)]

theorem findOperation_applyRow (h : Hierarchy) (r : RTMSProductionData)
    (uc fn ln sn pn opn : String) :
    findOperation (applyRow h r) uc fn ln sn pn opn =
      if uc = r.UnitCode ∧ fn = r.FloorName ∧ ln = r.LineName
          ∧ sn = r.StyleNo ∧ pn = r.PartName ∧ opn = r.NewOperSeq then
        some (applyRowOperation r
          ((findOperation h uc fn ln sn pn opn).getD
            (emptyNode r.NewOperSeq [])))
      else findOperation h uc fn ln sn pn opn := by
  unfold findOperation
  rw [findPart_applyRow]
  by_cases hc : uc = r.UnitCode ∧ fn = r.FloorName ∧ ln = r.LineName
      ∧ sn = r.StyleNo ∧ pn = r.PartName
  · rw [if_pos hc, childAt_some, applyRowPart_children, lookupKey_updateAt]
    simp only [lookupKey_getD_children]
    by_cases hx : opn = r.NewOperSeq
    · rw [if_pos hx,
        if_pos ⟨hc.1, hc.2.1, hc.2.2.1, hc.2.2.2.1, hc.2.2.2.2, hx⟩, hx]
    · rw [if_neg hx, if_neg (fun hh => hx hh.2.2.2.2.2)]
  · rw [if_neg hc,
      if_neg (fun hh => hc ⟨hh.1, hh.2.1, hh.2.2.1, hh.2.2.2.1,
        hh.2.2.2.2.1⟩)]

theorem findDevice_applyRow (h : Hierarchy) (r : RTMSProductionData)
    (uc fn ln sn pn opn dv : String) :
    findDevice (applyRow h r) uc fn ln sn pn opn dv =
      if uc = r.UnitCode ∧ fn = r.FloorName ∧ ln = r.LineName
          ∧ sn = r.StyleNo ∧ pn = r.PartName ∧ opn = r.NewOperSeq
          ∧ dv = r.DeviceID then
        some (applyRowDevice r
          ((findDevice h uc fn ln sn pn opn dv).getD
            (emptyNode r.DeviceID [])))
      else findDevice h uc fn ln sn pn opn dv := by
  unfold findDevice
  rw [findOperation_applyRow]
  by_cases hc : uc = r.UnitCode ∧ fn = r.FloorName ∧ ln = r.LineName
      ∧ sn = r.StyleNo ∧ pn = r.PartName ∧ opn = r.NewOperSeq
  · rw [if_pos hc, childAt_some, applyRowOperation_children,
      lookupKey_updateAt]
    simp only [lookupKey_getD_children]
    by_cases hx : dv = r.DeviceID
    · rw [if_pos hx,
        if_pos ⟨hc.1, hc.2.1, hc.2.2.1, hc.2.2.2.1, hc.2.2.2.2.1,
          hc.2.2.2.2.2, hx⟩, hx]
    · rw [if_neg hx, if_neg (fun hh => hx hh.2.2.2.2.2.2)]
  · rw [if_neg hc,
      if_neg (fun hh => hc ⟨hh.1, hh.2.1, hh.2.2.1, hh.2.2.2.1,
        hh.2.2.2.2.1, hh.2.2.2.2.2.1⟩)]

theorem findEmp_applyRow (h : Hierarchy) (r : RTMSProductionData)
    (uc fn ln sn pn opn dv ec : String) :
    findEmp (applyRow h r) uc fn ln sn pn opn dv ec =
      if uc = r.UnitCode ∧ fn = r.FloorName ∧ ln = r.LineName
          ∧ sn = r.StyleNo ∧ pn = r.PartName ∧ opn = r.NewOperSeq
          ∧ dv = r.DeviceID ∧ ec = r.EmpCode then
        some (mkEmpRec r)
      else findEmp h uc fn ln sn pn opn dv ec := by
  unfold findEmp
  rw [findDevice_applyRow]
  by_cases hc : uc = r.UnitCode ∧ fn = r.FloorName ∧ ln = r.LineName
      ∧ sn = r.StyleNo ∧ pn = r.PartName ∧ opn = r.NewOperSeq
      ∧ dv = r.DeviceID
  · rw [if_pos hc, childAt_some, applyRowDevice_children, lookupKey_upsert]
    by_cases hx : ec = r.EmpCode
    · rw [if_pos hx,
        if_pos ⟨hc.1, hc.2.1, hc.2.2.1, hc.2.2.2.1, hc.2.2.2.2.1,
          hc.2.2.2.2.2.1, hc.2.2.2.2.2.2, hx⟩]
    · rw [if_neg hx, if_neg (fun hh => hx hh.2.2.2.2.2.2.2),
        lookupKey_getD_children]
  · rw [if_neg hc,
      if_neg (fun hh => hc ⟨hh.1, hh.2.1, hh.2.2.1, hh.2.2.2.1,
        hh.2.2.2.2.1, hh.2.2.2.2.2.1, hh.2.2.2.2.2.2.1⟩)]

theorem totalsAt_bump {χ : Type} (o : Option (NodeData χ)) (nm : String)
    (c0 : χ) (r : RTMSProductionData) (f : χ → χ) :
    totalsAt (some (bumpNode r f (o.getD (emptyNode nm c0)))) =
      totalsAt o + (r.ProdnPcs, r.Eff100) := by
  cases o <;>
    simp [totalsAt, bumpNode, emptyNode, Prod.ext_iff]

theorem totalsAt_findUnit_applyRow (h : Hierarchy)
    (r : RTMSProductionData) (uc : String) :
    totalsAt (findUnit (applyRow h r) uc) =
      totalsAt (findUnit h uc) +
        (if uc = r.UnitCode then ((r.ProdnPcs, r.Eff100) : Int × Int)
         else (0, 0)) := by
  rw [findUnit_applyRow]
  by_cases hc : uc = r.UnitCode
  · rw [if_pos hc, if_pos hc]
    exact totalsAt_bump _ _ _ _ _
  · rw [if_neg hc, if_neg hc]
    simp

theorem totalsAt_findFloor_applyRow (h : Hierarchy)
    (r : RTMSProductionData) (uc fn : String) :
    totalsAt (findFloor (applyRow h r) uc fn) =
      totalsAt (findFloor h uc fn) +
        (if uc = r.UnitCode ∧ fn = r.FloorName then
          ((r.ProdnPcs, r.Eff100) : Int × Int) else (0, 0)) := by
  rw [findFloor_applyRow]
  by_cases hc : uc = r.UnitCode ∧ fn = r.FloorName
  · rw [if_pos hc, if_pos hc]
    exact totalsAt_bump _ _ _ _ _
  · rw [if_neg hc, if_neg hc]
    simp

theorem totalsAt_findLine_applyRow (h : Hierarchy)
    (r : RTMSProductionData) (uc fn ln : String) :
    totalsAt (findLine (applyRow h r) uc fn ln) =
      totalsAt (findLine h uc fn ln) +
        (if uc = r.UnitCode ∧ fn = r.FloorName ∧ ln = r.LineName then
          ((r.ProdnPcs, r.Eff100) : Int × Int) else (0, 0)) := by
  rw [findLine_applyRow]
  by_cases hc : uc = r.UnitCode ∧ fn = r.FloorName ∧ ln = r.LineName
  · rw [if_pos hc, if_pos hc]
    exact totalsAt_bump _ _ _ _ _
  · rw [if_neg hc, if_neg hc]
    simp

theorem totalsAt_findStyle_applyRow (h : Hierarchy)
    (r : RTMSProductionData) (uc fn ln sn : String) :
    totalsAt (findStyle (applyRow h r) uc fn ln sn) =
      totalsAt (findStyle h uc fn ln sn) +
        (if uc = r.UnitCode ∧ fn = r.FloorName ∧ ln = r.LineName
            ∧ sn = r.StyleNo then
          ((r.ProdnPcs, r.Eff100) : Int × Int) else (0, 0)) := by
  rw [findStyle_applyRow]
  by_cases hc : uc = r.UnitCode ∧ fn = r.FloorName ∧ ln = r.LineName
      ∧ sn = r.StyleNo
  · rw [if_pos hc, if_pos hc]
    exact totalsAt_bump _ _ _ _ _
  · rw [if_neg hc, if_neg hc]
    simp

theorem totalsAt_findPart_applyRow (h : Hierarchy)
    (r : RTMSProductionData) (uc fn ln sn pn : String) :
    totalsAt (findPart (applyRow h r) uc fn ln sn pn) =
      totalsAt (findPart h uc fn ln sn pn) +
        (if uc = r.UnitCode ∧ fn = r.FloorName ∧ ln = r.LineName
            ∧ sn = r.StyleNo ∧ pn = r.PartName then
          ((r.ProdnPcs, r.Eff100) : Int × Int) else (0, 0)) := by
  rw [findPart_applyRow]
  by_cases hc : uc = r.UnitCode ∧ fn = r.FloorName ∧ ln = r.LineName
      ∧ sn = r.StyleNo ∧ pn = r.PartName
  · rw [if_pos hc, if_pos hc]
    exact totalsAt_bump _ _ _ _ _
  · rw [if_neg hc, if_neg hc]
    simp

theorem totalsAt_findOperation_applyRow (h : Hierarchy)
    (r : RTMSProductionData) (uc fn ln sn pn opn : String) :
    totalsAt (findOperation (applyRow h r) uc fn ln sn pn opn) =
      totalsAt (findOperation h uc fn ln sn pn opn) +
        (if uc = r.UnitCode ∧ fn = r.FloorName ∧ ln = r.LineName
            ∧ sn = r.StyleNo ∧ pn = r.PartName ∧ opn = r.NewOperSeq then
          ((r.ProdnPcs, r.Eff100) : Int × Int) else (0, 0)) := by
  rw [findOperation_applyRow]
  by_cases hc : uc = r.UnitCode ∧ fn = r.FloorName ∧ ln = r.LineName
      ∧ sn = r.StyleNo ∧ pn = r.PartName ∧ opn = r.NewOperSeq
  · rw [if_pos hc, if_pos hc]
    exact totalsAt_bump _ _ _ _ _
  · rw [if_neg hc, if_neg hc]
    simp

theorem totalsAt_findDevice_applyRow (h : Hierarchy)
    (r : RTMSProductionData) (uc fn ln sn pn opn dv : String) :
    totalsAt (findDevice (applyRow h r) uc fn ln sn pn opn dv) =
      totalsAt (findDevice h uc fn ln sn pn opn dv) +
        (if uc = r.UnitCode ∧ fn = r.FloorName ∧ ln = r.LineName
            ∧ sn = r.StyleNo ∧ pn = r.PartName ∧ opn = r.NewOperSeq
            ∧ dv = r.DeviceID then
          ((r.ProdnPcs, r.Eff100) : Int × Int) else (0, 0)) := by
  rw [findDevice_applyRow]
  by_cases hc : uc = r.UnitCode ∧ fn = r.FloorName ∧ ln = r.LineName
      ∧ sn = r.StyleNo ∧ pn = r.PartName ∧ opn = r.NewOperSeq
      ∧ dv = r.DeviceID
  · rw [if_pos hc, if_pos hc]
    exact totalsAt_bump _ _ _ _ _
  · rw [if_neg hc, if_neg hc]
    simp

theorem totals_foldl {m : Hierarchy → Int × Int}
    {q : RTMSProductionData → Prop} [DecidablePred q]
    (hstep : ∀ h r, m (applyRow h r) = m h +
      (if q r then ((r.ProdnPcs, r.Eff100) : Int × Int) else (0, 0))) :
    ∀ (rows : List RTMSProductionData) (h : Hierarchy),
      m (rows.foldl applyRow h) = m h +
        ((rows.filter (fun r => decide (q r))).map
          (fun r => ((r.ProdnPcs, r.Eff100) : Int × Int))).sum := by
  intro rows
  induction rows with
  | nil =>
    intro h
    simp
  | cons r rest ih =>
    intro h
    rw [List.foldl_cons, ih, hstep, List.filter_cons]
    by_cases hq : q r
    · rw [if_pos hq, if_pos (by simp [hq])]
      simp [add_assoc]
    · rw [if_neg hq, if_neg (by simp [hq])]
      simp

theorem lastwrite_foldl {m : Hierarchy → Option EmpRec}
    {q : RTMSProductionData → Prop} [DecidablePred q]
    (hstep : ∀ h r, m (applyRow h r) =
      if q r then some (mkEmpRec r) else m h) :
    ∀ (rows : List RTMSProductionData) (h : Hierarchy),
      m (rows.foldl applyRow h) =
        match lastMatchRow rows q with
        | some r => some (mkEmpRec r)
        | none => m h := by
  intro rows
  induction rows using List.reverseRecOn with
  | nil =>
    intro h
    simp [lastMatchRow]
  | append_singleton rows r ih =>
    intro h
    rw [List.foldl_append, List.foldl_cons, List.foldl_nil, hstep]
    have hlast : lastMatchRow (rows ++ [r]) q =
        if q r then some r else lastMatchRow rows q := by
      simp [lastMatchRow, List.foldl_append]
    rw [hlast]
    by_cases hq : q r
    · rw [if_pos hq, if_pos hq]
    · rw [if_neg hq, if_neg hq, ih]

/-- C1 counterexample: with two rows of one batch mapping to the same
employee leaf, the unit's running totals are (30, 200) — the sum over the
rows — while the sum over its descendant employee leaves is (20, 100),
because the leaf was overwritten by the second row; the claimed equality
fails exactly in the duplicate case it asserts to cover. -/
theorem c1_counterexample :
    totalsAt (findUnit (get_enhanced_hierarchy_data [dupRowA, dupRowB])
      "U1") = (30, 200)
    ∧ (findUnit (get_enhanced_hierarchy_data [dupRowA, dupRowB])
        "U1").map leafTotalsUnit = some (20, 100)
    ∧ ((30, 200) : Int × Int) ≠ ((20, 100) : Int × Int) := by
  refine ⟨?_, ?_, by decide⟩
  · with_unfolding_all rfl
  · with_unfolding_all rfl

/-- C1 amended: every ancestor node's running (total_production,
total_target) equals the sum of (ProdnPcs, Eff100) over ALL rows of the
batch that map below that node — at each of the seven levels.  (When no two
rows map to the same employee leaf this coincides with the sum over the
descendant employee leaves, but not in general: leaves are overwritten,
totals accumulate.) -/
theorem c1_ancestor_totals_are_row_sums (rows : List RTMSProductionData)
    (uc fn ln sn pn opn dv : String) :
    totalsAt (findUnit (get_enhanced_hierarchy_data rows) uc) =
      ((rows.filter (fun r => decide (uc = r.UnitCode))).map
        (fun r => ((r.ProdnPcs, r.Eff100) : Int × Int))).sum
    ∧ totalsAt (findFloor (get_enhanced_hierarchy_data rows) uc fn) =
      ((rows.filter (fun r => decide (uc = r.UnitCode
          ∧ fn = r.FloorName))).map
        (fun r => ((r.ProdnPcs, r.Eff100) : Int × Int))).sum
    ∧ totalsAt (findLine (get_enhanced_hierarchy_data rows) uc fn ln) =
      ((rows.filter (fun r => decide (uc = r.UnitCode ∧ fn = r.FloorName
          ∧ ln = r.LineName))).map
        (fun r => ((r.ProdnPcs, r.Eff100) : Int × Int))).sum
    ∧ totalsAt (findStyle (get_enhanced_hierarchy_data rows) uc fn ln sn) =
      ((rows.filter (fun r => decide (uc = r.UnitCode ∧ fn = r.FloorName
          ∧ ln = r.LineName ∧ sn = r.StyleNo))).map
        (fun r => ((r.ProdnPcs, r.Eff100) : Int × Int))).sum
    ∧ totalsAt (findPart (get_enhanced_hierarchy_data rows)
        uc fn ln sn pn) =
      ((rows.filter (fun r => decide (uc = r.UnitCode ∧ fn = r.FloorName
          ∧ ln = r.LineName ∧ sn = r.StyleNo ∧ pn = r.PartName))).map
        (fun r => ((r.ProdnPcs, r.Eff100) : Int × Int))).sum
    ∧ totalsAt (findOperation (get_enhanced_hierarchy_data rows)
        uc fn ln sn pn opn) =
      ((rows.filter (fun r => decide (uc = r.UnitCode ∧ fn = r.FloorName
          ∧ ln = r.LineName ∧ sn = r.StyleNo ∧ pn = r.PartName
          ∧ opn = r.NewOperSeq))).map
        (fun r => ((r.ProdnPcs, r.Eff100) : Int × Int))).sum
    ∧ totalsAt (findDevice (get_enhanced_hierarchy_data rows)
        uc fn ln sn pn opn dv) =
      ((rows.filter (fun r => decide (uc = r.UnitCode ∧ fn = r.FloorName
          ∧ ln = r.LineName ∧ sn = r.StyleNo ∧ pn = r.PartName
          ∧ opn = r.NewOperSeq ∧ dv = r.DeviceID))).map
        (fun r => ((r.ProdnPcs, r.Eff100) : Int × Int))).sum := by
  refine ⟨?_, ?_, ?_, ?_, ?_, ?_, ?_⟩
  · simpa [get_enhanced_hierarchy_data, findUnit, lookupKey, totalsAt]
      using @totals_foldl (fun h => totalsAt (findUnit h uc))
        (fun r => uc = r.UnitCode) (fun r => inferInstance)
        (fun h r => totalsAt_findUnit_applyRow h r uc) rows []
  · simpa [get_enhanced_hierarchy_data, findFloor, findUnit, childAt,
      lookupKey, totalsAt]
      using @totals_foldl (fun h => totalsAt (findFloor h uc fn))
        (fun r => uc = r.UnitCode ∧ fn = r.FloorName)
        (fun r => inferInstance)
        (fun h r => totalsAt_findFloor_applyRow h r uc fn) rows []
  · simpa [get_enhanced_hierarchy_data, findLine, findFloor, findUnit,
      childAt, lookupKey, totalsAt]
      using @totals_foldl (fun h => totalsAt (findLine h uc fn ln))
        (fun r => uc = r.UnitCode ∧ fn = r.FloorName ∧ ln = r.LineName)
        (fun r => inferInstance)
        (fun h r => totalsAt_findLine_applyRow h r uc fn ln) rows []
  · simpa [get_enhanced_hierarchy_data, findStyle, findLine, findFloor,
      findUnit, childAt, lookupKey, totalsAt]
      using @totals_foldl (fun h => totalsAt (findStyle h uc fn ln sn))
        (fun r => uc = r.UnitCode ∧ fn = r.FloorName ∧ ln = r.LineName
          ∧ sn = r.StyleNo)
        (fun r => inferInstance)
        (fun h r => totalsAt_findStyle_applyRow h r uc fn ln sn) rows []
  · simpa [get_enhanced_hierarchy_data, findPart, findStyle, findLine,
      findFloor, findUnit, childAt, lookupKey, totalsAt]
      using @totals_foldl (fun h => totalsAt (findPart h uc fn ln sn pn))
        (fun r => uc = r.UnitCode ∧ fn = r.FloorName ∧ ln = r.LineName
          ∧ sn = r.StyleNo ∧ pn = r.PartName)
        (fun r => inferInstance)
        (fun h r => totalsAt_findPart_applyRow h r uc fn ln sn pn)
        rows []
  · simpa [get_enhanced_hierarchy_data, findOperation, findPart, findStyle,
      findLine, findFloor, findUnit, childAt, lookupKey, totalsAt]
      using @totals_foldl
        (fun h => totalsAt (findOperation h uc fn ln sn pn opn))
        (fun r => uc = r.UnitCode ∧ fn = r.FloorName ∧ ln = r.LineName
          ∧ sn = r.StyleNo ∧ pn = r.PartName ∧ opn = r.NewOperSeq)
        (fun r => inferInstance)
        (fun h r => totalsAt_findOperation_applyRow h r uc fn ln sn pn opn)
        rows []
  · simpa [get_enhanced_hierarchy_data, findDevice, findOperation,
      findPart, findStyle, findLine, findFloor, findUnit, childAt,
      lookupKey, totalsAt]
      using @totals_foldl
        (fun h => totalsAt (findDevice h uc fn ln sn pn opn dv))
        (fun r => uc = r.UnitCode ∧ fn = r.FloorName ∧ ln = r.LineName
          ∧ sn = r.StyleNo ∧ pn = r.PartName ∧ opn = r.NewOperSeq
          ∧ dv = r.DeviceID)
        (fun r => inferInstance)
        (fun h r => totalsAt_findDevice_applyRow h r uc fn ln sn pn opn dv)
        rows []

/-- C7: when two or more rows of one batch map to the same employee leaf,
the leaf holds exactly the metrics of the LAST such row in batch order
(`lastMatchRow`), while the totals of every ancestor level equal the sums
over ALL rows mapping below that ancestor — so every duplicate row's
contribution is included in the ancestors. -/
theorem c7_leaf_last_write_ancestors_accumulate
    (rows : List RTMSProductionData)
    (uc fn ln sn pn opn dv ec : String) :
    (findEmp (get_enhanced_hierarchy_data rows) uc fn ln sn pn opn dv ec =
      match lastMatchRow rows (fun r => uc = r.UnitCode ∧ fn = r.FloorName
        ∧ ln = r.LineName ∧ sn = r.StyleNo ∧ pn = r.PartName
        ∧ opn = r.NewOperSeq ∧ dv = r.DeviceID ∧ ec = r.EmpCode) with
      | some r => some (mkEmpRec r)
      | none => none)
    ∧ totalsAt (findUnit (get_enhanced_hierarchy_data rows) uc) =
      ((rows.filter (fun r => decide (uc = r.UnitCode))).map
        (fun r => ((r.ProdnPcs, r.Eff100) : Int × Int))).sum
    ∧ totalsAt (findFloor (get_enhanced_hierarchy_data rows) uc fn) =
      ((rows.filter (fun r => decide (uc = r.UnitCode
          ∧ fn = r.FloorName))).map
        (fun r => ((r.ProdnPcs, r.Eff100) : Int × Int))).sum
    ∧ totalsAt (findLine (get_enhanced_hierarchy_data rows) uc fn ln) =
      ((rows.filter (fun r => decide (uc = r.UnitCode ∧ fn = r.FloorName
          ∧ ln = r.LineName))).map
        (fun r => ((r.ProdnPcs, r.Eff100) : Int × Int))).sum
    ∧ totalsAt (findStyle (get_enhanced_hierarchy_data rows) uc fn ln sn) =
      ((rows.filter (fun r => decide (uc = r.UnitCode ∧ fn = r.FloorName
          ∧ ln = r.LineName ∧ sn = r.StyleNo))).map
        (fun r => ((r.ProdnPcs, r.Eff100) : Int × Int))).sum
    ∧ totalsAt (findPart (get_enhanced_hierarchy_data rows)
        uc fn ln sn pn) =
      ((rows.filter (fun r => decide (uc = r.UnitCode ∧ fn = r.FloorName
          ∧ ln = r.LineName ∧ sn = r.StyleNo ∧ pn = r.PartName))).map
        (fun r => ((r.ProdnPcs, r.Eff100) : Int × Int))).sum
    ∧ totalsAt (findOperation (get_enhanced_hierarchy_data rows)
        uc fn ln sn pn opn) =
      ((rows.filter (fun r => decide (uc = r.UnitCode ∧ fn = r.FloorName
          ∧ ln = r.LineName ∧ sn = r.StyleNo ∧ pn = r.PartName
          ∧ opn = r.NewOperSeq))).map
        (fun r => ((r.ProdnPcs, r.Eff100) : Int × Int))).sum
    ∧ totalsAt (findDevice (get_enhanced_hierarchy_data rows)
        uc fn ln sn pn opn dv) =
      ((rows.filter (fun r => decide (uc = r.UnitCode ∧ fn = r.FloorName
          ∧ ln = r.LineName ∧ sn = r.StyleNo ∧ pn = r.PartName
          ∧ opn = r.NewOperSeq ∧ dv = r.DeviceID))).map
        (fun r => ((r.ProdnPcs, r.Eff100) : Int × Int))).sum := by
  refine ⟨?_, ?_, ?_, ?_, ?_, ?_, ?_, ?_⟩
  · have hmain := @lastwrite_foldl
      (fun h => findEmp h uc fn ln sn pn opn dv ec)
      (fun r => uc = r.UnitCode ∧ fn = r.FloorName ∧ ln = r.LineName
        ∧ sn = r.StyleNo ∧ pn = r.PartName ∧ opn = r.NewOperSeq
        ∧ dv = r.DeviceID ∧ ec = r.EmpCode)
      (fun r => inferInstance)
      (fun h r => findEmp_applyRow h r uc fn ln sn pn opn dv ec) rows []
    cases hm : lastMatchRow rows (fun r => uc = r.UnitCode
        ∧ fn = r.FloorName ∧ ln = r.LineName ∧ sn = r.StyleNo
        ∧ pn = r.PartName ∧ opn = r.NewOperSeq ∧ dv = r.DeviceID
        ∧ ec = r.EmpCode) with
    | none =>
      rw [hm] at hmain
      exact hmain
    | some r0 =>
      rw [hm] at hmain
      exact hmain
  · simpa [get_enhanced_hierarchy_data, findUnit, lookupKey, totalsAt]
      using @totals_foldl (fun h => totalsAt (findUnit h uc))
        (fun r => uc = r.UnitCode) (fun r => inferInstance)
        (fun h r => totalsAt_findUnit_applyRow h r uc) rows []
  · simpa [get_enhanced_hierarchy_data, findFloor, findUnit, childAt,
      lookupKey, totalsAt]
      using @totals_foldl (fun h => totalsAt (findFloor h uc fn))
        (fun r => uc = r.UnitCode ∧ fn = r.FloorName)
        (fun r => inferInstance)
        (fun h r => totalsAt_findFloor_applyRow h r uc fn) rows []
  · simpa [get_enhanced_hierarchy_data, findLine, findFloor, findUnit,
      childAt, lookupKey, totalsAt]
      using @totals_foldl (fun h => totalsAt (findLine h uc fn ln))
        (fun r => uc = r.UnitCode ∧ fn = r.FloorName ∧ ln = r.LineName)
        (fun r => inferInstance)
        (fun h r => totalsAt_findLine_applyRow h r uc fn ln) rows []
  · simpa [get_enhanced_hierarchy_data, findStyle, findLine, findFloor,
      findUnit, childAt, lookupKey, totalsAt]
      using @totals_foldl (fun h => totalsAt (findStyle h uc fn ln sn))
        (fun r => uc = r.UnitCode ∧ fn = r.FloorName ∧ ln = r.LineName
          ∧ sn = r.StyleNo)
        (fun r => inferInstance)
        (fun h r => totalsAt_findStyle_applyRow h r uc fn ln sn) rows []
  · simpa [get_enhanced_hierarchy_data, findPart, findStyle, findLine,
      findFloor, findUnit, childAt, lookupKey, totalsAt]
      using @totals_foldl (fun h => totalsAt (findPart h uc fn ln sn pn))
        (fun r => uc = r.UnitCode ∧ fn = r.FloorName ∧ ln = r.LineName
          ∧ sn = r.StyleNo ∧ pn = r.PartName)
        (fun r => inferInstance)
        (fun h r => totalsAt_findPart_applyRow h r uc fn ln sn pn)
        rows []
  · simpa [get_enhanced_hierarchy_data, findOperation, findPart, findStyle,
      findLine, findFloor, findUnit, childAt, lookupKey, totalsAt]
      using @totals_foldl
        (fun h => totalsAt (findOperation h uc fn ln sn pn opn))
        (fun r => uc = r.UnitCode ∧ fn = r.FloorName ∧ ln = r.LineName
          ∧ sn = r.StyleNo ∧ pn = r.PartName ∧ opn = r.NewOperSeq)
        (fun r => inferInstance)
        (fun h r => totalsAt_findOperation_applyRow h r uc fn ln sn pn opn)
        rows []
  · simpa [get_enhanced_hierarchy_data, findDevice, findOperation,
      findPart, findStyle, findLine, findFloor, findUnit, childAt,
      lookupKey, totalsAt]
      using @totals_foldl
        (fun h => totalsAt (findDevice h uc fn ln sn pn opn dv))
        (fun r => uc = r.UnitCode ∧ fn = r.FloorName ∧ ln = r.LineName
          ∧ sn = r.StyleNo ∧ pn = r.PartName ∧ opn = r.NewOperSeq
          ∧ dv = r.DeviceID)
        (fun r => inferInstance)
        (fun h r => totalsAt_findDevice_applyRow h r uc fn ln sn pn opn dv)
        rows []

theorem updateAt_mem_prop {β : Type} (P : β → Prop)
    (l : List (String × β)) (k : String) (d : β) (f : β → β)
    (hl : ∀ k' b, lookupKey k' l = some b → P b)
    (hf : ∀ b, P b → P (f b)) (hd : P d) :
    ∀ k' b, lookupKey k' (updateAt l k d f) = some b → P b := by
  intro k' b hb
  rw [lookupKey_updateAt] at hb
  by_cases h : k' = k
  · rw [if_pos h] at hb
    injection hb with hb
    subst hb
    cases hlk : lookupKey k l with
    | none => exact hf d hd
    | some b0 => exact hf b0 (hl k b0 hlk)
  · rw [if_neg h] at hb
    exact hl k' b hb

theorem effInv_bump {χ : Type} (r : RTMSProductionData)
    (hp : 0 ≤ r.ProdnPcs) (ht : 0 ≤ r.Eff100) (f : χ → χ)
    (n : NodeData χ) (hn : 0 ≤ n.total_production ∧ 0 ≤ n.total_target) :
    effInv (bumpNode r f n).total_production
      (bumpNode r f n).total_target (bumpNode r f n).efficiency :=
  ⟨rfl, add_nonneg hn.1 hp, add_nonneg hn.2 ht⟩

theorem effInv_empty {χ : Type} (nm : String) (c : χ) :
    effInv (emptyNode nm c).total_production
      (emptyNode nm c).total_target (emptyNode nm c).efficiency := by
  refine ⟨?_, le_refl _, le_refl _⟩
  simp [emptyNode]

theorem nodesOkDevice_apply (r : RTMSProductionData)
    (hp : 0 ≤ r.ProdnPcs) (ht : 0 ≤ r.Eff100) (d : DeviceNode)
    (hd : nodesOkDevice effInv d) :
    nodesOkDevice effInv (applyRowDevice r d) :=
  effInv_bump r hp ht _ d ⟨hd.2.1, hd.2.2⟩

theorem nodesOkOperation_apply (r : RTMSProductionData)
    (hp : 0 ≤ r.ProdnPcs) (ht : 0 ≤ r.Eff100) (o : OperationNode)
    (ho : nodesOkOperation effInv o) :
    nodesOkOperation effInv (applyRowOperation r o) := by
  refine ⟨effInv_bump r hp ht _ o ⟨ho.1.2.1, ho.1.2.2⟩, ?_⟩
  intro k d hk
  rw [applyRowOperation_children] at hk
  exact updateAt_mem_prop (nodesOkDevice effInv) o.children r.DeviceID
    (emptyNode r.DeviceID []) (applyRowDevice r) ho.2
    (fun b hb => nodesOkDevice_apply r hp ht b hb)
    (effInv_empty r.DeviceID []) k d hk

theorem nodesOkPart_apply (r : RTMSProductionData)
    (hp : 0 ≤ r.ProdnPcs) (ht : 0 ≤ r.Eff100) (p : PartNode)
    (hq : nodesOkPart effInv p) :
    nodesOkPart effInv (applyRowPart r p) := by
  refine ⟨effInv_bump r hp ht _ p ⟨hq.1.2.1, hq.1.2.2⟩, ?_⟩
  intro k o hk
  rw [applyRowPart_children] at hk
  exact updateAt_mem_prop (nodesOkOperation effInv) p.children r.NewOperSeq
    (emptyNode r.NewOperSeq []) (applyRowOperation r) hq.2
    (fun b hb => nodesOkOperation_apply r hp ht b hb)
    ⟨effInv_empty r.NewOperSeq [], by intro k' d hd; simp [emptyNode, lookupKey] at hd⟩
    k o hk

theorem nodesOkStyle_apply (r : RTMSProductionData)
    (hp : 0 ≤ r.ProdnPcs) (ht : 0 ≤ r.Eff100) (st : StyleNode)
    (hq : nodesOkStyle effInv st) :
    nodesOkStyle effInv (applyRowStyle r st) := by
  refine ⟨effInv_bump r hp ht _ st ⟨hq.1.2.1, hq.1.2.2⟩, ?_⟩
  intro k p hk
  rw [applyRowStyle_children] at hk
  exact updateAt_mem_prop (nodesOkPart effInv) st.children r.PartName
    (emptyNode r.PartName []) (applyRowPart r) hq.2
    (fun b hb => nodesOkPart_apply r hp ht b hb)
    ⟨effInv_empty r.PartName [], by intro k' d hd; simp [emptyNode, lookupKey] at hd⟩
    k p hk

theorem nodesOkLine_apply (r : RTMSProductionData)
    (hp : 0 ≤ r.ProdnPcs) (ht : 0 ≤ r.Eff100) (l : LineNode)
    (hq : nodesOkLine effInv l) :
    nodesOkLine effInv (applyRowLine r l) := by
  refine ⟨effInv_bump r hp ht _ l ⟨hq.1.2.1, hq.1.2.2⟩, ?_⟩
  intro k st hk
  rw [applyRowLine_children] at hk
  exact updateAt_mem_prop (nodesOkStyle effInv) l.children r.StyleNo
    (emptyNode r.StyleNo []) (applyRowStyle r) hq.2
    (fun b hb => nodesOkStyle_apply r hp ht b hb)
    ⟨effInv_empty r.StyleNo [], by intro k' d hd; simp [emptyNode, lookupKey] at hd⟩
    k st hk

theorem nodesOkFloor_apply (r : RTMSProductionData)
    (hp : 0 ≤ r.ProdnPcs) (ht : 0 ≤ r.Eff100) (fl : FloorNode)
    (hq : nodesOkFloor effInv fl) :
    nodesOkFloor effInv (applyRowFloor r fl) := by
  refine ⟨effInv_bump r hp ht _ fl ⟨hq.1.2.1, hq.1.2.2⟩, ?_⟩
  intro k l hk
  rw [applyRowFloor_children] at hk
  exact updateAt_mem_prop (nodesOkLine effInv) fl.children r.LineName
    (emptyNode r.LineName []) (applyRowLine r) hq.2
    (fun b hb => nodesOkLine_apply r hp ht b hb)
    ⟨effInv_empty r.LineName [], by intro k' d hd; simp [emptyNode, lookupKey] at hd⟩
    k l hk

theorem nodesOkUnit_apply (r : RTMSProductionData)
    (hp : 0 ≤ r.ProdnPcs) (ht : 0 ≤ r.Eff100) (u : UnitNode)
    (hq : nodesOkUnit effInv u) :
    nodesOkUnit effInv (applyRowUnit r u) := by
  refine ⟨effInv_bump r hp ht _ u ⟨hq.1.2.1, hq.1.2.2⟩, ?_⟩
  intro k fl hk
  rw [applyRowUnit_children] at hk
  exact updateAt_mem_prop (nodesOkFloor effInv) u.children r.FloorName
    (emptyNode r.FloorName []) (applyRowFloor r) hq.2
    (fun b hb => nodesOkFloor_apply r hp ht b hb)
    ⟨effInv_empty r.FloorName [], by intro k' d hd; simp [emptyNode, lookupKey] at hd⟩
    k fl hk

theorem nodesOkHierarchy_apply (r : RTMSProductionData)
    (hp : 0 ≤ r.ProdnPcs) (ht : 0 ≤ r.Eff100) (h : Hierarchy)
    (hh : nodesOkHierarchy effInv h) :
    nodesOkHierarchy effInv (applyRow h r) := by
  intro k u hk
  unfold applyRow at hk
  exact updateAt_mem_prop (nodesOkUnit effInv) h r.UnitCode
    (emptyNode r.UnitCode []) (applyRowUnit r) hh
    (fun b hb => nodesOkUnit_apply r hp ht b hb)
    ⟨effInv_empty r.UnitCode [], by intro k' d hd; simp [emptyNode, lookupKey] at hd⟩
    k u hk

theorem nodesOkHierarchy_fold :
    ∀ (rows : List RTMSProductionData) (h : Hierarchy),
      (∀ r ∈ rows, 0 ≤ r.ProdnPcs ∧ 0 ≤ r.Eff100) →
      nodesOkHierarchy effInv h →
      nodesOkHierarchy effInv (rows.foldl applyRow h) := by
  intro rows
  induction rows with
  | nil =>
    intro h _ hh
    exact hh
  | cons r rest ih =>
    intro h hrows hh
    rw [List.foldl_cons]
    exact ih (applyRow h r)
      (fun r' hr' => hrows r' (List.mem_cons_of_mem _ hr'))
      (nodesOkHierarchy_apply r (hrows r (List.mem_cons_self _ _)).1
        (hrows r (List.mem_cons_self _ _)).2 h hh)

theorem effInv_imp_effSafe : ∀ tp tt e, effInv tp tt e → effSafe tp tt e := by
  intro tp tt e he
  obtain ⟨hef, hp, ht⟩ := he
  constructor
  · rw [hef]
    split_ifs with h
    · have hp' : (0 : ℚ) ≤ (tp : ℚ) := by exact_mod_cast hp
      have ht' : (0 : ℚ) ≤ (tt : ℚ) := by exact_mod_cast ht
      exact mul_nonneg (div_nonneg hp' ht') (by norm_num)
    · exact le_refl 0
  · intro h0
    rw [hef, h0]
    simp

theorem nodesOkDevice_mono {P Q : Int → Int → ℚ → Prop}
    (hPQ : ∀ tp tt e, P tp tt e → Q tp tt e) (d : DeviceNode) :
    nodesOkDevice P d → nodesOkDevice Q d :=
  fun h => hPQ _ _ _ h

theorem nodesOkOperation_mono {P Q : Int → Int → ℚ → Prop}
    (hPQ : ∀ tp tt e, P tp tt e → Q tp tt e) (o : OperationNode) :
    nodesOkOperation P o → nodesOkOperation Q o :=
  fun h => ⟨hPQ _ _ _ h.1,
    fun k d hk => nodesOkDevice_mono hPQ d (h.2 k d hk)⟩

theorem nodesOkPart_mono {P Q : Int → Int → ℚ → Prop}
    (hPQ : ∀ tp tt e, P tp tt e → Q tp tt e) (p : PartNode) :
    nodesOkPart P p → nodesOkPart Q p :=
  fun h => ⟨hPQ _ _ _ h.1,
    fun k o hk => nodesOkOperation_mono hPQ o (h.2 k o hk)⟩

theorem nodesOkStyle_mono {P Q : Int → Int → ℚ → Prop}
    (hPQ : ∀ tp tt e, P tp tt e → Q tp tt e) (st : StyleNode) :
    nodesOkStyle P st → nodesOkStyle Q st :=
  fun h => ⟨hPQ _ _ _ h.1,
    fun k p hk => nodesOkPart_mono hPQ p (h.2 k p hk)⟩

theorem nodesOkLine_mono {P Q : Int → Int → ℚ → Prop}
    (hPQ : ∀ tp tt e, P tp tt e → Q tp tt e) (l : LineNode) :
    nodesOkLine P l → nodesOkLine Q l :=
  fun h => ⟨hPQ _ _ _ h.1,
    fun k st hk => nodesOkStyle_mono hPQ st (h.2 k st hk)⟩

theorem nodesOkFloor_mono {P Q : Int → Int → ℚ → Prop}
    (hPQ : ∀ tp tt e, P tp tt e → Q tp tt e) (fl : FloorNode) :
    nodesOkFloor P fl → nodesOkFloor Q fl :=
  fun h => ⟨hPQ _ _ _ h.1,
    fun k l hk => nodesOkLine_mono hPQ l (h.2 k l hk)⟩

theorem nodesOkUnit_mono {P Q : Int → Int → ℚ → Prop}
    (hPQ : ∀ tp tt e, P tp tt e → Q tp tt e) (u : UnitNode) :
    nodesOkUnit P u → nodesOkUnit Q u :=
  fun h => ⟨hPQ _ _ _ h.1,
    fun k fl hk => nodesOkFloor_mono hPQ fl (h.2 k fl hk)⟩

theorem nodesOkHierarchy_mono {P Q : Int → Int → ℚ → Prop}
    (hPQ : ∀ tp tt e, P tp tt e → Q tp tt e) (h : Hierarchy) :
    nodesOkHierarchy P h → nodesOkHierarchy Q h :=
  fun hh k u hk => nodesOkUnit_mono hPQ u (hh k u hk)

/-- C8: per-row, `calculate_efficiency` is `ProdnPcs / Eff100 * 100` when
the target is positive, exactly 0 when the target is 0, and never negative
for nonnegative inputs; and for every batch of rows with nonnegative
produced/target values, EVERY node of the aggregated tree — at all seven
levels — has a nonnegative `efficiency` that is exactly 0 whenever the
node's `total_target` is 0 (no division fault anywhere). -/
theorem c8_no_division_fault :
    (∀ r : RTMSProductionData, 0 ≤ r.ProdnPcs → 0 ≤ r.Eff100 →
      (0 < r.Eff100 →
        r.calculate_efficiency = (r.ProdnPcs : ℚ) / (r.Eff100 : ℚ) * 100)
      ∧ (r.Eff100 = 0 → r.calculate_efficiency = 0)
      ∧ 0 ≤ r.calculate_efficiency)
    ∧ ∀ rows : List RTMSProductionData,
        (∀ r ∈ rows, 0 ≤ r.ProdnPcs ∧ 0 ≤ r.Eff100) →
        nodesOkHierarchy effSafe (get_enhanced_hierarchy_data rows) := by
  constructor
  · intro r hp ht
    refine ⟨fun h => ?_, fun h => ?_, ?_⟩
    · unfold RTMSProductionData.calculate_efficiency
      rw [if_pos h]
    · unfold RTMSProductionData.calculate_efficiency
      rw [h]
      norm_num
    · unfold RTMSProductionData.calculate_efficiency
      split_ifs with h
      · have hp' : (0 : ℚ) ≤ (r.ProdnPcs : ℚ) := by exact_mod_cast hp
        have ht' : (0 : ℚ) ≤ (r.Eff100 : ℚ) := by exact_mod_cast ht
        exact mul_nonneg (div_nonneg hp' ht') (by norm_num)
      · exact le_refl 0
  · intro rows hrows
    have hinv := nodesOkHierarchy_fold rows [] hrows
      (by intro k u hk; simp [lookupKey] at hk)
    exact nodesOkHierarchy_mono effInv_imp_effSafe _ hinv

/-- Witness for C8: the row facts at `c8row` and the tree safety for the
one-row batch `[c8row]`. -/
theorem c8_no_division_fault_witness :
    ((0 < c8row.Eff100 → c8row.calculate_efficiency =
        (c8row.ProdnPcs : ℚ) / (c8row.Eff100 : ℚ) * 100)
      ∧ (c8row.Eff100 = 0 → c8row.calculate_efficiency = 0)
      ∧ 0 ≤ c8row.calculate_efficiency)
    ∧ nodesOkHierarchy effSafe (get_enhanced_hierarchy_data [c8row]) :=
  ⟨c8_no_division_fault.1 c8row (by decide) (by decide),
   c8_no_division_fault.2 [c8row] (by decide)⟩
